import Mathlib

/-!
Verification development for the voice-based medical history taker
(`lambda_function.py`).  The dialogue state machine, the question catalog
accessor, the language-interpretation gateway wrappers and the response
store are shallowly embedded as executable Lean definitions; the external
language service and the random generator are modelled as parameters
(`SvcResult` outcomes / a `pick` function), and Python exceptions are
modelled as explicit error results.
-/

namespace VoiceIntake

/-! ## String helpers mirroring Python primitives -/

/-- ASCII apostrophe, built from its code point so it can be embedded in
    prompt strings. -/
def sq : String := String.mk [Char.ofNat 39]

/-- Right single quotation mark (U+2019), used in some prompt strings. -/
def rsq : String := String.mk [Char.ofNat 8217]

/-- Python `str.strip` whitespace set (space, tab, newline, return,
    vertical tab, form feed). -/
def pySpace (c : Char) : Bool :=
  c = ' ' || c = Char.ofNat 9 || c = Char.ofNat 10 || c = Char.ofNat 13 ||
  c = Char.ofNat 11 || c = Char.ofNat 12

/-- Python `str.strip()`. -/
def pyStrip (s : String) : String :=
  String.mk (((s.data.dropWhile pySpace).reverse.dropWhile pySpace).reverse)

/-- Python `str.lower()` (ASCII fragment). -/
def pyLower (s : String) : String := String.mk (s.data.map Char.toLower)

/-- Python `str.upper()` (ASCII fragment). -/
def pyUpper (s : String) : String := String.mk (s.data.map Char.toUpper)

/-- Split a character list at every separator (keeping empty pieces),
    Python `str.split(sep)` for a one-character separator. -/
def splitOnPred (p : Char → Bool) : List Char → List (List Char)
  | [] => [[]]
  | x :: xs =>
    match splitOnPred p xs with
    | [] => [[]]
    | h :: t => if p x then [] :: h :: t else (x :: h) :: t

def splitOnChar (c : Char) (s : String) : List String :=
  (splitOnPred (· = c) s.data).map String.mk

/-- Python `str.split()` with no argument: split on whitespace runs,
    dropping empty pieces. -/
def pySplitWs (s : String) : List String :=
  ((splitOnPred pySpace s.data).filter (· ≠ [])).map String.mk

/-- Python `str.startswith`. -/
def strStartsWith (s p : String) : Bool := p.data.isPrefixOf s.data

/-- Fueled scanner for Python `str.replace` (all occurrences,
    left-to-right, non-overlapping); each step consumes at least one
    character when the pattern is non-empty. -/
def strReplaceAux (pat rep : List Char) : Nat → List Char → List Char
  | 0, cs => cs
  | _ + 1, [] => []
  | fuel + 1, c :: cs =>
    if pat.isPrefixOf (c :: cs) then
      rep ++ strReplaceAux pat rep fuel ((c :: cs).drop pat.length)
    else c :: strReplaceAux pat rep fuel cs

/-- Python `str.replace` (our call sites never pass an empty pattern). -/
def pyReplace (s pat rep : String) : String :=
  if pat.data.isEmpty then s
  else String.mk (strReplaceAux pat.data rep.data (s.data.length + 1) s.data)

/-- Numeric value of an all-digit character list, Python `int(s)` for the
    guarded call sites. -/
def digitsToNat (l : List Char) : Nat :=
  l.foldl (fun n c => n * 10 + (c.toNat - 48)) 0

/-- Auxiliary scanner for Python `str.title()`: the Bool records whether the
    previous character was alphabetic. -/
def pyTitleAux : Bool → List Char → List Char
  | _, [] => []
  | prevAlpha, c :: cs =>
    if c.isAlpha then
      (if prevAlpha then c.toLower else c.toUpper) :: pyTitleAux true cs
    else
      c :: pyTitleAux false cs

/-- Python `str.title()`. -/
def pyTitle (s : String) : String := String.mk (pyTitleAux false s.data)

/-- Substring containment, Python `pat in s`. -/
def strContains (s pat : String) : Bool :=
  (List.range (s.data.length + 1)).any (fun i => pat.data.isPrefixOf (s.data.drop i))

/-- Word character for the regex `\w` / `\b` classes (ASCII fragment). -/
def isWordChar (c : Char) : Bool := c.isAlphanum || c = '_'

/-- Split a character list at the first occurrence of `c`. -/
def splitFirstAux (c : Char) : List Char → Option (List Char × List Char)
  | [] => none
  | x :: xs =>
    if x = c then some ([], xs)
    else (splitFirstAux c xs).map (fun pr => (x :: pr.1, pr.2))

/-- Split a string at its first `|`, Python `s.split("|", 1)`. -/
def splitFirstBar (s : String) : Option (String × String) :=
  (splitFirstAux '|' s.data).map (fun pr => (String.mk pr.1, String.mk pr.2))

/-- Python `str.strip("[]")`. -/
def stripSquareBrackets (s : String) : String :=
  let br := fun c => c = '[' || c = ']'
  String.mk (((s.data.dropWhile br).reverse.dropWhile br).reverse)

/-- Python `str.strip(' "')`. -/
def stripSpaceQuote (s : String) : String :=
  let p := fun c => c = ' ' || c = '"'
  String.mk (((s.data.dropWhile p).reverse.dropWhile p).reverse)

/-! ## Regex matchers from the source -/

/-- `^\d{4}-\d{2}-\d{2}$` (line 1131). -/
def matches_dob (s : String) : Bool :=
  match s.data with
  | [a, b, c, d, h1, e, f, h2, g, h] =>
    a.isDigit && b.isDigit && c.isDigit && d.isDigit && h1 = '-' &&
    e.isDigit && f.isDigit && h2 = '-' && g.isDigit && h.isDigit
  | _ => false

/-- Character class `[\w\.-]` of the email regex. -/
def wordDotDash (c : Char) : Bool := isWordChar c || c = '.' || c = '-'

/-- Split a character list at its last `.`: returns (before, after). -/
def lastDotSplit (l : List Char) : Option (List Char × List Char) :=
  match l.reverse.findIdx? (· = '.') with
  | none => none
  | some k =>
    let n := l.length - 1 - k
    some (l.take n, l.drop (n + 1))

/-- `^[\w\.-]+@[\w\.-]+\.[a-z]{2,}$` (line 1159). -/
def matches_email (s : String) : Bool :=
  match splitOnChar '@' s with
  | [a, r] =>
    a ≠ "" && a.data.all wordDotDash &&
    (match lastDotSplit r.data with
     | some (b, c) =>
       !b.isEmpty && b.all wordDotDash && decide (2 ≤ c.length) &&
       c.all (fun ch => 'a' ≤ ch && ch ≤ 'z')
     | none => false)
  | _ => false

/-- `^\+61[23478]\d{8}$` (line 1170). -/
def matches_phone (s : String) : Bool :=
  match s.data with
  | '+' :: '6' :: '1' :: d :: rest =>
    (d = '2' || d = '3' || d = '4' || d = '7' || d = '8') &&
    decide (rest.length = 8) && rest.all Char.isDigit
  | _ => false

/-- Try to match `\be\.g[\.:]?\s*` (case-insensitive) at the head of `cs`,
    where `prev` is the preceding original character (for the `\b` test).
    On success, returns the rest of the input and the last consumed
    character. -/
def matchEg (prev : Option Char) (cs : List Char) : Option (List Char × Char) :=
  let boundary := match prev with
    | none => true
    | some p => !isWordChar p
  match cs with
  | c1 :: '.' :: c3 :: rest =>
    if boundary && (c1 = 'e' || c1 = 'E') && (c3 = 'g' || c3 = 'G') then
      let (rest2, last2) :=
        match rest with
        | c4 :: r4 => if c4 = '.' || c4 = ':' then (r4, c4) else (rest, c3)
        | [] => ([], c3)
      let spaces := rest2.takeWhile pySpace
      let rest3 := rest2.dropWhile pySpace
      let last3 := match spaces.getLast? with
        | some c => c
        | none => last2
      some (rest3, last3)
    else none
  | _ => none

/-- Fueled scanner for
    `re.sub(r"\be\.g[\.:]?\s*", "for example, ", text, flags=IGNORECASE)`
    (line 46); each step consumes at least one character, so fuel
    `length + 1` suffices. -/
def egSubAux : Nat → Option Char → List Char → List Char
  | 0, _, cs => cs
  | _ + 1, _, [] => []
  | fuel + 1, prev, c :: cs =>
    match matchEg prev (c :: cs) with
    | some (rest, last) => "for example, ".data ++ egSubAux fuel (some last) rest
    | none => c :: egSubAux fuel (some c) cs

def egSub (s : String) : String :=
  String.mk (egSubAux (s.data.length + 1) none s.data)

/-- `normalise_question` (lines 44-49): replace `e.g.` / `e.g:` / `e.g`
    with `for example, `, delete parentheses, strip. -/
def normalise_question (text : String) : String :=
  pyStrip (String.mk ((egSub text).data.filter (fun c => c ≠ '(' && c ≠ ')')))

/-- Fueled scanner for `re.sub(r"['’](\d{2})", r"20\1", s)` (lines 1185,
    1192). -/
def yearSubAux : Nat → List Char → List Char
  | 0, cs => cs
  | _ + 1, [] => []
  | fuel + 1, c :: cs =>
    match cs with
    | d1 :: d2 :: rest =>
      if (c = Char.ofNat 39 || c = Char.ofNat 8217) && d1.isDigit && d2.isDigit then
        '2' :: '0' :: d1 :: d2 :: yearSubAux fuel rest
      else c :: yearSubAux fuel cs
    | _ => c :: yearSubAux fuel cs

def yearSub (s : String) : String :=
  String.mk (yearSubAux (s.data.length + 1) s.data)

/-- After the `\d{1,2}` digits of the month-date regex: match
    `\s+(20\d{2})`; returns the year characters and the rest. -/
def monthDateTail (t : List Char) : Option (List Char × List Char) :=
  if (t.takeWhile pySpace).isEmpty then none
  else
    match t.dropWhile pySpace with
    | '2' :: '0' :: y1 :: y2 :: rest =>
      if y1.isDigit && y2.isDigit then some (['2', '0', y1, y2], rest) else none
    | _ => none

/-- Try to match `\b(\w+)\s+\d{1,2}\s+(20\d{2})` at the head of `cs`;
    returns the replacement `\1 \2` and the rest. The `\d{1,2}` is greedy
    with one-step backtracking, as in the `re` engine. -/
def matchMonthDate (prev : Option Char) (cs : List Char) : Option (List Char × List Char) :=
  let boundary := match prev with
    | none => true
    | some p => !isWordChar p
  let word := cs.takeWhile isWordChar
  if !boundary || word.isEmpty then none
  else
    let afterWord := cs.dropWhile isWordChar
    if (afterWord.takeWhile pySpace).isEmpty then none
    else
      match afterWord.dropWhile pySpace with
      | d1 :: r1 =>
        if d1.isDigit then
          let two :=
            match r1 with
            | d2 :: r2 => if d2.isDigit then monthDateTail r2 else none
            | [] => none
          match two with
          | some (year, rest) => some (word ++ [' '] ++ year, rest)
          | none =>
            match monthDateTail r1 with
            | some (year, rest) => some (word ++ [' '] ++ year, rest)
            | none => none
        else none
      | [] => none

/-- Fueled scanner for
    `re.sub(r"\b(\w+)\s+\d{1,2}\s+(20\d{2})", r"\1 \2", s)` (line 1193). -/
def monthDateSubAux : Nat → Option Char → List Char → List Char
  | 0, _, cs => cs
  | _ + 1, _, [] => []
  | fuel + 1, prev, c :: cs =>
    match matchMonthDate prev (c :: cs) with
    | some (repl, rest) =>
      repl ++ monthDateSubAux fuel (repl.getLast?) rest
    | none => c :: monthDateSubAux fuel (some c) cs

def monthDateSub (s : String) : String :=
  String.mk (monthDateSubAux (s.data.length + 1) none s.data)

/-- Month names for `strftime("%B %Y")`. -/
def monthName : Nat → Option String
  | 1 => some "January" | 2 => some "February" | 3 => some "March"
  | 4 => some "April" | 5 => some "May" | 6 => some "June"
  | 7 => some "July" | 8 => some "August" | 9 => some "September"
  | 10 => some "October" | 11 => some "November" | 12 => some "December"
  | _ => none

def allDigits (s : String) : Bool := s ≠ "" && s.data.all Char.isDigit

/-- `format_date_for_speech` (lines 553-559): parse `YYYY-MM` and render
    `Month YYYY`; on any parse failure return the input.  `%Y` is modelled
    as a four-digit year. -/
def format_date_for_speech (ym : String) : String :=
  match splitOnChar '-' ym with
  | [y, m] =>
    if allDigits y && allDigits m && y.length = 4 && 1 ≤ m.length && m.length ≤ 2 then
      match monthName (digitsToNat m.data) with
      | some name => name ++ " " ++ y
      | none => ym
    else ym
  | _ => ym

/-- `add_short_pause` (lines 548-549). -/
def add_short_pause (text : String) (pause_duration_ms : Nat) : String :=
  "<break time=" ++ sq ++ toString pause_duration_ms ++ "ms" ++ sq ++ "/> " ++ text

/-! ## Question catalog -/

/-- A follow-up record from the catalog document.  The handler reads
    `fup["question"]` (mandatory) and `fup.get("question_title",
    "response")` (optional). -/
structure FollowupRec where
  question : String
  question_title : Option String
deriving Repr, DecidableEq

/-- A top-level question record.  `question_id`, `question_title` and
    `question` are accessed by plain subscript in the handler, hence
    mandatory; `follow_up` defaults to `[]` via `.get`. -/
structure QuestionData where
  question_id : String
  question_title : String
  question : String
  follow_up : List FollowupRec
deriving Repr, DecidableEq

structure SectionData where
  questions : List QuestionData
deriving Repr, DecidableEq

/-- The catalog document: `{opening, closing, sections}`.  `opening` and
    `closing` are present in the external-interface shape of the
    document. -/
structure Catalog where
  opening : String
  closing : String
  sections : List SectionData
deriving Repr, DecidableEq

/-- `get_next_question` (lines 83-91). -/
def get_next_question (questions : Catalog) (section_index question_index : Nat) :
    Option QuestionData :=
  match questions.sections.get? section_index with
  | none => none
  | some sec => sec.questions.get? question_index

/-- The normalisation pass of `get_questions` (lines 69-73): every
    top-level question text is passed through `normalise_question`;
    follow-up texts are left untouched. -/
def loadQuestions (doc : Catalog) : Catalog :=
  { doc with
    sections := doc.sections.map (fun sec =>
      { sec with questions := sec.questions.map (fun q =>
          { q with question := normalise_question q.question }) }) }

/-! ## Language interpretation gateway

Each Gemini call either raises (`exn`) or returns a response whose `.text`
is `None` or a string; the wrapper functions below reproduce the
try/except and parsing logic of the source. -/

/-- Outcome of one underlying language-service call. -/
inductive SvcResult where
  | ok (text : Option String)
  | exn
deriving Repr, DecidableEq

/-- `check_yes_no_with_gemini` (lines 203-251): on service failure, or a
    `None` text (whose `.strip()` raises inside the try block), return
    `UNCLEAR`. -/
def check_yes_no_with_gemini (svc : SvcResult) (_user_response _question : String) : String :=
  match svc with
  | .ok (some t) => pyUpper (pyStrip t)
  | .ok none => "UNCLEAR"
  | .exn => "UNCLEAR"

/-- `parse_yes_no_and_detail` (lines 253-305). -/
def parse_yes_no_and_detail (svc : SvcResult) (_user_response _main_question : String) :
    String × Option String :=
  match svc with
  | .ok (some t) =>
    let response_text := pyStrip t
    match splitFirstBar response_text with
    | some (d, detail) =>
      let det := pyStrip detail
      (pyUpper (pyStrip d), if det = "" then none else some det)
    | none => ("UNCLEAR", none)
  | .ok none => ("UNCLEAR", none)
  | .exn => ("UNCLEAR", none)

/-- `is_repeat_request` (lines 309-351): `False` on failure. -/
def is_repeat_request (svc : SvcResult) (_user_text _original_question : String) : Bool :=
  match svc with
  | .ok (some t) => strStartsWith (pyLower (pyStrip t)) "yes"
  | .ok none => false
  | .exn => false

/-- `validate_with_gemini` (lines 355-446): `(True, slot_value)` on any
    failure or unexpected output. -/
def validate_with_gemini (svc : SvcResult) (_slot_name slot_value _original_question : String) :
    Bool × String :=
  match svc with
  | .ok (some t) =>
    let response_text := pyStrip t
    if strStartsWith response_text "VALID|" then
      (true, stripSquareBrackets (pyStrip (((splitFirstBar response_text).map (·.2)).getD "")))
    else if strStartsWith response_text "INVALID|" then
      (false, stripSquareBrackets (pyStrip (((splitFirstBar response_text).map (·.2)).getD "")))
    else if response_text = "VALID" then (true, slot_value)
    else (true, slot_value)
  | .ok none => (true, slot_value)
  | .exn => (true, slot_value)

/-- `extract_information_with_gemini` (lines 450-478): the original
    response on failure or empty text. -/
def extract_information_with_gemini (svc : SvcResult) (_question user_response : String)
    (_slot_name : Option String) : String :=
  match svc with
  | .ok (some t) => if t = "" then user_response else pyStrip t
  | .ok none => user_response
  | .exn => user_response

/-- `get_rephrased_question` (lines 482-514): `None` on failure or empty
    text; a leading bullet list is unwrapped.  `splitlines` is modelled as
    splitting on newline. -/
def get_rephrased_question (svc : SvcResult) (_original_question : String) : Option String :=
  match svc with
  | .ok (some t) =>
    let full_text := pyStrip t
    if full_text = "" then none
    else
      let bullet := fun (c : Char) => c = '*' || c = '-' || c.isDigit || c = '.'
      let lines := (splitOnChar (Char.ofNat 10) full_text).map pyStrip
      match lines.find? (fun l =>
          strStartsWith l "**" || strStartsWith l "1." || strStartsWith l "-") with
      | some l => some (stripSpaceQuote (String.mk (l.data.dropWhile bullet)))
      | none => some full_text
  | .ok none => none
  | .exn => none

/-- `get_skipped_followups` (lines 517-544): parse a `1,3`-style answer
    into 0-based indexes (`int(i)-1`, hence `Int`: `0` becomes `-1`);
    `[]` on failure or a `none` answer. -/
def get_skipped_followups (svc : SvcResult) : List Int :=
  match svc with
  | .ok (some t) =>
    let text := pyLower (pyStrip t)
    if strContains text "none" then []
    else
      ((splitOnChar ',' text).filterMap (fun i =>
        let s := pyStrip i
        if s ≠ "" && s.data.all Char.isDigit then some (digitsToNat s.data) else none)).map
        (fun n => (n : Int) - 1)
  | .ok none => []
  | .exn => []

/-! ## Response store (`save_patient_data`, lines 111-166)

The `patients` collection is a list of documents; `update_one` updates the
first matching document and, in the positional form, the first matching
array element.  Timestamps are abstract `Nat`s. -/

/-- One element of a patient document's `response` array. -/
structure RespRec where
  question_id : String
  question : String
  response : String
  time : Nat
deriving Repr, DecidableEq

/-- One document of the `patients` collection.  `session_info` is absent
    (`none`) on documents created by the `$push` upsert and set to
    `(session_start, session_end)` by the positional update. -/
structure PatientDoc where
  session_id : Nat
  patient_id : Nat
  session_info : Option (Nat × Nat)
  response : List RespRec
deriving Repr, DecidableEq

/-- `update_one` document selection: replace the first document satisfying
    `p` by `f` of it; `none` when no document matches. -/
def updateFirstDoc (p : PatientDoc → Bool) (f : PatientDoc → PatientDoc) :
    List PatientDoc → Option (List PatientDoc)
  | [] => none
  | d :: ds =>
    if p d then some (f d :: ds)
    else (updateFirstDoc p f ds).map (d :: ·)

/-- The positional `response.$` update: rewrite the first array element
    with the given `question_id`. -/
def setFirstRec (qid label value : String) (now : Nat) : List RespRec → List RespRec
  | [] => []
  | r :: rs =>
    if r.question_id = qid then
      { r with question := label, response := value, time := now } :: rs
    else r :: setFirstRec qid label value now rs

/-- The first `update_one` query (lines 126-130): same session and patient,
    and the `response` array already holds this `question_id`. -/
def matchesQ1 (sid pid : Nat) (qid : String) (d : PatientDoc) : Bool :=
  d.session_id = sid && d.patient_id = pid && d.response.any (·.question_id = qid)

/-- The `$push` + `upsert=True` fallback (lines 149-163): append the record
    to the first `(session_id, patient_id)` document, or create a fresh
    document. -/
def pushOrCreate (sid pid : Nat) (rec : RespRec) : List PatientDoc → List PatientDoc
  | [] => [⟨sid, pid, none, [rec]⟩]
  | d :: ds =>
    if d.session_id = sid && d.patient_id = pid then
      { d with response := d.response ++ [rec] } :: ds
    else d :: pushOrCreate sid pid rec ds

/-- One loop iteration of `save_patient_data` for a single
    `(question_id, label, value)` pair: try the in-place positional update,
    else push/upsert. -/
def upsertAnswer (sid pid : Nat) (qid label value : String) (sstart now : Nat)
    (store : List PatientDoc) : List PatientDoc :=
  match updateFirstDoc (matchesQ1 sid pid qid)
      (fun d => { d with session_info := some (sstart, now),
                         response := setFirstRec qid label value now d.response }) store with
  | some store2 => store2
  | none => pushOrCreate sid pid ⟨qid, label, value, now⟩ store

/-- Count of logical response records for a `(session_id, patient_id,
    question_id)` key across the store. -/
def countQ : List PatientDoc → Nat → Nat → String → Nat
  | [], _, _, _ => 0
  | d :: ds, sid, pid, qid =>
    (if d.session_id = sid && d.patient_id = pid then
      (d.response.filter (·.question_id = qid)).length
    else 0) + countQ ds sid pid qid

/-- Total number of response records in the store. -/
def totalRecs : List PatientDoc → Nat
  | [] => 0
  | d :: ds => d.response.length + totalRecs ds

/-- The contribution of one document to `countQ`. -/
def docCount (d : PatientDoc) (sid pid : Nat) (qid : String) : Nat :=
  if d.session_id = sid && d.patient_id = pid then
    (d.response.filter (·.question_id = qid)).length
  else 0

/-- Lexicographic order on `(current_section, current_question)`. -/
def lexLe (a b : Nat × Nat) : Prop :=
  a.1 < b.1 ∨ (a.1 = b.1 ∧ a.2 ≤ b.2)

/-! ## Dialogue state machine: state, environment, results -/

/-- Entries of the session `patient_data` dict:
    `question_id ↦ (label, value)` in insertion order. -/
abbrev PData := List (String × String × String)

/-- Python dict assignment on `patient_data`: update in place if the key
    exists (dict keys are unique), else append. -/
def setPd : PData → String → String → String → PData
  | [], k, label, value => [(k, label, value)]
  | e :: t, k, label, value =>
    if e.1 = k then (k, label, value) :: t else e :: setPd t k label value

/-- Lookup in `patient_data`. -/
def lookupPd (pd : PData) (k : String) : Option (String × String) :=
  (pd.find? (·.1 = k)).map (·.2)

/-- The `unconfirmed_answer` scratch dict (line 1203): exactly these six
    keys; in particular it never carries a `follow_up` key. -/
structure PendingAnswer where
  question_id : String
  question_title : String
  question_text : String
  response : String
  «section» : Nat
  question_index : Nat
deriving Repr, DecidableEq

/-- The `unconfirmed_followup` scratch dict. -/
structure PendingFollowup where
  question_id : String
  question_text : String
  question_title : String
  response : String
  followup_index : Nat
deriving Repr, DecidableEq

/-- The `f"{question_id}_followups"` session entries. -/
abbrev FupLists := List (String × List FollowupRec)

def lookupFups (l : FupLists) (k : String) : List FollowupRec :=
  ((l.find? (·.1 = k)).map (·.2)).getD []

def setFups : FupLists → String → List FollowupRec → FupLists
  | [], k, v => [(k, v)]
  | e :: t, k, v => if e.1 = k then (k, v) :: t else e :: setFups t k v

/-- The session attributes the transition function reads or writes.
    `questions = none` models a session whose catalog was not yet stored
    (the launch handler does not store it).  `session_id`, `patient_id`
    and timestamps do not influence the dialogue logic and are omitted. -/
structure SessState where
  questions : Option Catalog
  current_section : Nat
  current_question : Nat
  patient_data : PData
  waiting_for_ready_confirmation : Bool
  awaiting_confirmation : Bool
  awaiting_followup_confirmation : Bool
  current_followup_for : Option String
  unconfirmed_answer : Option PendingAnswer
  unconfirmed_followup : Option PendingFollowup
  followup_lists : FupLists
  confirmation_prompt : Option String
  patient_first_name : Option String
deriving Repr, DecidableEq

/-- One turn's external nondeterminism: the outcome of each (at most one
    per turn) language-service call, the catalog fetch, and the random
    chooser. -/
structure Env where
  yesNoSvc : SvcResult
  parseSvc : SvcResult
  repeatSvc : SvcResult
  validateSvc : SvcResult
  extractSvc : SvcResult
  rephraseSvc : SvcResult
  skipSvc : SvcResult
  fetched : Option Catalog
  pick : List String → String

/-- Python exceptions that can escape the handler. -/
inductive PyError where
  | attributeError
  | nameError
  | indexError
  | keyError
  | typeError
deriving Repr, DecidableEq

/-- The rendered Alexa response: the spoken text and the reprompt
    (`none` when the turn ends the session, i.e. no `.ask`). -/
structure TurnOut where
  speak : String
  ask : Option String
deriving Repr, DecidableEq

/-- Result of one turn: a response with the updated session state, or an
    unhandled exception; `saves` lists the `patient_data` snapshots passed
    to `save_patient_data` before returning/raising. -/
inductive StepResult where
  | ok (out : TurnOut) (st : SessState) (saves : List PData)
  | err (e : PyError) (saves : List PData)
deriving Repr, DecidableEq

def StepResult.saves : StepResult → List PData
  | .ok _ _ s => s
  | .err _ s => s

def StepResult.okState : StepResult → Option SessState
  | .ok _ st _ => some st
  | .err _ _ => none

def StepResult.speakOut : StepResult → Option String
  | .ok out _ _ => some out.speak
  | .err _ _ => none

def StepResult.askOut : StepResult → Option String
  | .ok out _ _ => out.ask
  | .err _ _ => none

def StepResult.isError : StepResult → Bool
  | .ok _ _ _ => false
  | .err _ _ => true

/-- The `(current_section, current_question)` pointer of a successful
    turn. -/
def okIndices (r : StepResult) : Option (Nat × Nat) :=
  r.okState.map (fun s => (s.current_section, s.current_question))

/-- Shared next-question resolution, as the spec states it: starting from
    `(cs, cq)`, the turn asks the question at `(cs, cq+1)` if it exists,
    else the one at `(cs+1, 0)` if it exists, else emits exactly the
    catalog's closing statement with no reprompt. -/
def AdvancesFrom (cat : Catalog) (cs cq : Nat) (r : StepResult) : Prop :=
  (∀ nq, get_next_question cat cs (cq + 1) = some nq →
    r.askOut = some nq.question ∧ okIndices r = some (cs, cq + 1)) ∧
  (get_next_question cat cs (cq + 1) = none →
    (∀ nq, get_next_question cat (cs + 1) 0 = some nq →
      r.askOut = some nq.question ∧ okIndices r = some (cs + 1, 0)) ∧
    (get_next_question cat (cs + 1) 0 = none →
      r.speakOut = some cat.closing ∧ r.askOut = none ∧ okIndices r = some (cs + 1, 0)))

/-! ## Prompt constants (from `capture_answer_intent`) -/

/-- FREE_TEXT_SLOTS (lines 621-637). -/
def FREE_TEXT_SLOTS : List String :=
  ["medical_conditions_list", "surgeries_list", "surgeries_reason",
   "medications_list", "allergy_type", "allergy_reaction",
   "family_medical_conditions_list", "family_medical_conditions_list_2",
   "family_disability_type", "family_disability_type_2", "exercise_list",
   "immunizations_list", "occupation", "travel_frequency",
   "harsh_environment_exposure"]

/-- NO_CONFIRMATION_SLOTS (lines 640-644). -/
def NO_CONFIRMATION_SLOTS : List String :=
  ["medical_conditions", "surgeries", "allergies", "children",
   "smoking_status", "alcohol_consumption", "exercise",
   "family_medical_history", "family_disabilities", "immunizations",
   "previous_medical_records", "previous_medical_records_submission"]

def retrieve_error_mg : String :=
  "Sorry, I couldn" ++ sq ++ "t retrieve the questions. Please try again later."

/-- OPENING_REPHRASES (lines 739-743). -/
def OPENING_REPHRASES : List String :=
  ["We" ++ rsq ++ "d like to ask you some simple questions to get to know your health background. Your answers are kept confidential and help our team look after you better. Shall we get started?",
   "To get to know you better and support your care, we" ++ rsq ++ "ll ask a few health questions. Your answers stay private. Ready to begin?",
   "Let" ++ sq ++ "s go through some simple health questions. Your information is kept secret and helps us provide the best care. Are you ready to start?"]

/-- The follow-up saved-confirmation pool (lines 797-805), already
    formatted with the patient first name. -/
def savedConfirmations (pfn : String) : List String :=
  ["Thanks " ++ pfn ++ "! I" ++ sq ++ "ve saved that information.",
   "Got it! Your information has been recorded.",
   "Thanks " ++ pfn ++ "! Your response has been saved successfully.",
   "Okay, " ++ pfn ++ ". I" ++ sq ++ "ve noted that.",
   "Great! Your information is now stored.",
   "Understood! Your details have been saved.",
   "Your answer has been updated. Thank you " ++ pfn ++ "!"]

/-- The main-answer saved-confirmation pool (lines 950-957), formatted with
    the patient first name and display slot name. -/
def slotSavedConfirmations (pfn sd : String) : List String :=
  ["Thanks " ++ pfn ++ "! I" ++ sq ++ "ve saved your " ++ sd ++ ".",
   "Got it! Your " ++ sd ++ " has been recorded.",
   "Thanks " ++ pfn ++ "! Your " ++ sd ++ " has been saved successfully.",
   "Okay, " ++ pfn ++ ". I" ++ sq ++ "ve noted your " ++ sd ++ ".",
   "Great! Your " ++ sd ++ " is now stored.",
   "Understood! Your " ++ sd ++ " has been saved.",
   "Your " ++ sd ++ " has been updated. Thank you " ++ pfn ++ "!"]

/-- `acknowledgements` (lines 1105-1112). -/
def ACKNOWLEDGEMENTS : List String :=
  ["Thanks for letting me know. Next: ",
   "Alright, noted.  Next: ",
   "Got it. Next question: ",
   "Understood.  Next question: ",
   "No worries, that" ++ sq ++ "s helpful to know. Next: ",
   "Okay, Next: "]

/-- STRUCTURED_CONFIRMATIONS (lines 1215-1222), formatted. -/
def STRUCTURED_CONFIRMATIONS (sn v : String) : List String :=
  ["Got it. Just to confirm, is your " ++ sn ++ " " ++ v ++ "?",
   "Thanks. Just checking: is your " ++ sn ++ " " ++ v ++ "?",
   "Understood. Can you confirm that your " ++ sn ++ " is " ++ v ++ "?",
   "Thanks. Just to make sure I got it right, is your " ++ sn ++ " " ++ v ++ "?",
   "Okay, your " ++ sn ++ " is " ++ v ++ ". Is that correct?",
   "Thank you. Did I get your " ++ sn ++ " right? Is it " ++ v ++ "?"]

/-- FREE_TEXT_CONFIRMATIONS (lines 1224-1232), formatted. -/
def FREE_TEXT_CONFIRMATIONS (v : String) : List String :=
  ["Thanks for sharing. You mentioned: " ++ v ++ ". Is that correct?",
   "You said: " ++ v ++ ". Can I confirm that?",
   "Okay, I heard: " ++ v ++ ". Is that correct?",
   "Just to make sure I got it right, you said: " ++ v ++ ", correct?",
   "You shared: " ++ v ++ ". Did I hear it right?",
   "Got it. You mentioned: " ++ v ++ ". Is that correct?",
   "Thanks. Did I understand correctly: " ++ v ++ "?"]

/-- `slot_name.replace('_', ' ')`. -/
def slotDisplay (slot_name : String) : String := pyReplace slot_name "_" " "

/-- Filter of the configured follow-ups by the skip list (lines 905-907);
    the skip indexes are `Int` because `"0"` parses to `-1`. -/
def followupsRemaining (fups : List FollowupRec) (skips : List Int) : List FollowupRec :=
  (fups.enum.filter (fun p => !(skips.contains (p.1 : Int)))).map (·.2)

/-! ## The turn-transition function (`capture_answer_intent`)

Translated phase by phase.  Python control flow that `return`s maps to a
`StepResult`; unhandled exceptions map to `.err`.  The catalog documents in
this model always carry `opening`/`closing` (per the external interface
shape), so the defensive re-fetches at lines 720-722 and 1080-1085 reduce
to no-ops and are noted in comments. -/

/-- Readiness confirmation phase (lines 718-745). -/
def readinessPhase (env : Env) (questions : Catalog) (st : SessState)
    (slot_value : String) : StepResult :=
  -- lines 720-722: `"opening" not in questions` is impossible here.
  let decision := check_yes_no_with_gemini env.yesNoSvc slot_value questions.opening
  if decision = "YES" then
    let st2 := { st with waiting_for_ready_confirmation := false,
                         current_section := 0, current_question := 0 }
    match get_next_question questions 0 0 with
    | none => .err .typeError []   -- line 732: subscripting `None`
    | some nq =>
      .ok ⟨"Great! Let" ++ sq ++ "s get started. " ++ nq.question, some nq.question⟩ st2 []
  else if decision = "NO" then
    .ok ⟨"That" ++ sq ++ "s okay. Let me know when you" ++ sq ++ "re ready.",
         some ("Say " ++ sq ++ "I" ++ sq ++ "m ready" ++ sq ++ " when you are ready.")⟩ st []
  else
    let r := env.pick OPENING_REPHRASES
    .ok ⟨r, some r⟩ st []

/-- Follow-up confirmation, YES branch (lines 780-850). -/
def followupConfirmYes (env : Env) (questions : Catalog) (st : SessState)
    (pending : PendingFollowup) : StepResult :=
  let followup_id := pending.question_id ++ "_" ++ toString pending.followup_index
  let pd := setPd st.patient_data followup_id pending.question_title pending.response
  let st2 := { st with unconfirmed_followup := none,
                       awaiting_followup_confirmation := false,
                       current_followup_for := none,
                       patient_data := pd }
  let saves := [pd]   -- save_patient_data, line 790
  let followup_list := lookupFups st.followup_lists pending.question_id
  let next_index := pending.followup_index + 1
  let pfn := st.patient_first_name.getD "there"
  let confirmation_response := add_short_pause (env.pick (savedConfirmations pfn)) 800
  match followup_list.get? next_index with
  | some next_followup =>
    -- lines 807-819: queue the next follow-up
    let st3 := { st2 with
      unconfirmed_followup := some ⟨pending.question_id, next_followup.question,
        next_followup.question_title.getD "response", "", next_index⟩,
      current_followup_for := some pending.question_id,
      awaiting_followup_confirmation := false }
    .ok ⟨confirmation_response ++ add_short_pause next_followup.question 1000,
         some next_followup.question⟩ st3 saves
  | none =>
    -- lines 821-850: all follow-ups complete, advance the main pointer
    let st3 := { st2 with current_question := st2.current_question + 1 }
    match get_next_question questions st3.current_section st3.current_question with
    | some nq =>
      .ok ⟨confirmation_response ++ add_short_pause nq.question 1000, some nq.question⟩ st3 saves
    | none =>
      let st4 := { st3 with current_section := st3.current_section + 1, current_question := 0 }
      match get_next_question questions st4.current_section 0 with
      | some nq =>
        .ok ⟨confirmation_response ++ add_short_pause nq.question 1000, some nq.question⟩ st4 saves
      | none => .ok ⟨questions.closing, none⟩ st4 saves

/-- Follow-up confirmation phase (lines 748-864); `none` when the flag is
    clear or the classification is none of UNCLEAR/YES/NO (Python falls
    through to the later phases in that case). -/
def followupConfirmPhase (env : Env) (questions : Catalog) (st : SessState)
    (slot_value : String) : Option StepResult :=
  if !st.awaiting_followup_confirmation then none
  else
    match st.unconfirmed_followup with
    | none => some (.err .typeError [])   -- line 756: `key in None` raises TypeError
    | some pending =>
      -- lines 765-769: a KeyError on the prompt is caught inside the try → UNCLEAR
      let decision := match st.confirmation_prompt with
        | none => "UNCLEAR"
        | some cp => check_yes_no_with_gemini env.yesNoSvc slot_value cp
      if decision = "UNCLEAR" then
        some (.ok ⟨"Sorry, can you confirm your answer?", some "Can you confirm?"⟩ st [])
      else if decision = "YES" then
        some (followupConfirmYes env questions st pending)
      else if decision = "NO" then
        -- lines 853-864: restore the original follow-up question, response cleared
        let st2 := { st with awaiting_followup_confirmation := false,
                             current_followup_for := none,
                             unconfirmed_followup := some { pending with response := "" } }
        some (.ok ⟨"Okay, let" ++ sq ++ "s try again. " ++ pending.question_text,
                   some pending.question_text⟩ st2 [])
      else none

/-- Main confirmation, "no follow-up needed" advance (lines 942-974).
    `saves` carries the snapshot persisted earlier in the YES branch. -/
def confirmAdvance (env : Env) (questions : Catalog) (st3 : SessState)
    (pending : PendingAnswer) (slot_name : String) (saves : List PData) : StepResult :=
  let st4 := { st3 with awaiting_confirmation := false,
                        current_question := pending.question_index + 1 }
  -- line 945: the lookup section is the pending answer's recorded section,
  -- while line 962 increments the session's own counter.
  match get_next_question questions pending.«section» st4.current_question with
  | some nq =>
    let pfn := st4.patient_first_name.getD "there"
    let speak := add_short_pause (env.pick (slotSavedConfirmations pfn (slotDisplay slot_name))) 800
      ++ add_short_pause nq.question 1000
    .ok ⟨speak, some nq.question⟩ st4 saves
  | none =>
    let st5 := { st4 with current_section := st4.current_section + 1, current_question := 0 }
    match get_next_question questions st5.current_section 0 with
    | some nq =>
      let pfn := st5.patient_first_name.getD "there"
      .ok ⟨"Thank you, " ++ pfn ++ ". Let" ++ sq ++ "s move to the next section. " ++ nq.question,
           some nq.question⟩ st5 saves
    | none => .ok ⟨questions.closing, none⟩ st5 saves

/-- Main confirmation, YES branch (lines 874-974). -/
def confirmYes (env : Env) (questions : Catalog) (st : SessState)
    (pending : PendingAnswer) : StepResult :=
  let st2 := { st with unconfirmed_answer := none }   -- pop, line 875
  let slot_name := pending.question_title
  let response_value :=
    if 2 ≤ pending.«section» then
      extract_information_with_gemini env.extractSvc pending.question_text pending.response none
    else pending.response
  let pd := setPd st2.patient_data pending.question_id slot_name response_value
  let st3 := { st2 with patient_data := pd }
  let saves := [pd]   -- save_patient_data, line 889
  -- line 892: `pending.get("follow_up", [])` — `unconfirmed_answer` never
  -- carries a `follow_up` key, so this is always the empty list and the
  -- follow-up entry block below (lines 894-940) is unreachable.
  let follow_ups : List FollowupRec := []
  match follow_ups with
  | f0 :: rest =>
    -- dead code, kept for line-by-line correspondence: evaluating the
    -- guard when the response is no affirmation reads the unbound local
    -- `detail` (line 897, NameError); the all-skipped path calls the
    -- non-existent dict method `gset` (line 913, AttributeError).
    if slot_name ∈ FREE_TEXT_SLOTS || pyLower response_value ∈ ["yes", "yeah", "yep"] then
      let skip_indexes := get_skipped_followups env.skipSvc
      match followupsRemaining (f0 :: rest) skip_indexes with
      | [] => .err .attributeError saves   -- line 913: `session_attributes.gset`
      | r0 :: rrest =>
        -- lines 936-940: note `awaiting_confirmation` is left set here
        let st4 := { st3 with current_followup_for := some pending.question_id,
                              followup_lists := setFups st3.followup_lists
                                pending.question_id (r0 :: rrest) }
        .ok ⟨r0.question, some r0.question⟩ st4 saves
    else .err .nameError saves   -- line 897: unbound local `detail`
  | [] => confirmAdvance env questions st3 pending slot_name saves

/-- Main confirmation phase (lines 868-982). -/
def confirmPhase (env : Env) (questions : Catalog) (st : SessState)
    (slot_value : String) : StepResult :=
  -- line 871: plain subscript on the prompt → KeyError when absent
  match st.confirmation_prompt with
  | none => .err .keyError []
  | some cp =>
    let decision := check_yes_no_with_gemini env.yesNoSvc slot_value cp
    if decision = "YES" then
      match st.unconfirmed_answer with
      | none => .err .keyError []   -- line 875: pop on a missing key
      | some pending => confirmYes env questions st pending
    else if decision = "NO" then
      match st.unconfirmed_answer with
      | none => .err .keyError []   -- line 977: subscript on a missing key
      | some pending =>
        -- lines 976-979: only the flag is cleared; the pending answer stays
        let st2 := { st with awaiting_confirmation := false }
        .ok ⟨"Okay, let" ++ sq ++ "s try again. " ++ pending.question_text,
             some pending.question_text⟩ st2 []
    else .ok ⟨"Sorry, could you confirm?", some "Can you confirm?"⟩ st []

/-- Output of the per-slot validation chain (lines 1123-1200): either
    re-ask without touching state, or proceed with a final value (and an
    optional `patient_first_name` to record). -/
inductive SlotOutcome where
  | reask (speak : String) (ask : String)
  | proceed (final_response : String) (pfnUpdate : Option String)
deriving Repr, DecidableEq

/-- The slot-specific `elif` chain for slots outside the no-confirmation
    set (lines 1123-1200), in source order. -/
def slotBranch (env : Env) (qd : QuestionData) (slot_name : String)
    (final_response : String) : SlotOutcome :=
  if slot_name ∈ FREE_TEXT_SLOTS then
    let f := extract_information_with_gemini env.extractSvc qd.question final_response none
    if f = "" then
      .reask ("Sorry, I didn" ++ sq ++ "t catch that. Could you please repeat?")
             "Could you please repeat?"
    else .proceed f none
  else if slot_name = "date_of_birth" then
    if matches_dob final_response then .proceed final_response none
    else
      let vr := validate_with_gemini env.validateSvc slot_name final_response qd.question
      if vr.1 then .proceed vr.2 none else .reask vr.2 vr.2
  else if slot_name = "name" then
    let parts := pySplitWs final_response
    if parts.length < 2 then
      .reask "Please tell me your full name." "Could you say your full name?"
    else .proceed (pyTitle final_response) (some (pyTitle (parts.headD "")))
  else if strContains slot_name "gender" then
    .proceed (pyReplace (pyReplace (pyReplace (pyReplace (pyReplace final_response
      "woman" "female") "women" "female") "girl" "female") "man" "male") "boy" "male") none
  else if strContains slot_name "email" then
    let f := pyLower (pyStrip (pyReplace (pyReplace final_response " at " "@") " dot " "."))
    if matches_email f then .proceed f none
    else
      let vr := validate_with_gemini env.validateSvc slot_name f qd.question
      -- lines 1160-1162: a VALID verdict is discarded; `f` is kept
      if vr.1 then .proceed f none else .reask vr.2 vr.2
  else if slot_name = "contact_number" || slot_name = "emergency_contact_phone" then
    let f1 := pyReplace final_response "oh" "zero"
    let digits_only := String.mk (f1.data.filter Char.isDigit)
    let f2 := if strStartsWith digits_only "0" then
        "+61" ++ String.mk (digits_only.data.drop 1)
      else f1
    if matches_phone f2 then .proceed f2 none
    else
      let vr := validate_with_gemini env.validateSvc slot_name f2 qd.question
      -- lines 1171-1173: a VALID verdict is discarded; `f2` is kept
      if vr.1 then .proceed f2 none else .reask vr.2 vr.2
  else if slot_name = "emergency_contact" then
    let parts := pySplitWs final_response
    if parts.length < 2 then
      .reask "Could you please provide their full name, including last name?"
             "Could you tell me their full name?"
    else .proceed (pyTitle final_response) none
  else if slot_name = "emergency_contact_relationship" then
    .proceed (extract_information_with_gemini env.extractSvc qd.question final_response
      (some slot_name)) none
  else if slot_name = "surgeries_date" || slot_name = "immunizations_date" then
    -- line 1185 rewrites `slot_value`, which is not read afterwards
    let vr := validate_with_gemini env.validateSvc slot_name final_response qd.question
    if !vr.1 then .reask vr.2 vr.2
    else .proceed (pyStrip (monthDateSub (yearSub vr.2))) none
  else
    let vr := validate_with_gemini env.validateSvc slot_name final_response qd.question
    if vr.1 then .proceed vr.2 none else .reask vr.2 vr.2

/-- Store the validated answer as a pending (unconfirmed) answer and ask
    for confirmation (lines 1202-1254). -/
def storePendingAnswer (env : Env) (st : SessState) (qd : QuestionData)
    (slot_name final_response : String) : StepResult :=
  let pendingA : PendingAnswer :=
    ⟨qd.question_id, qd.question_title, qd.question, final_response,
     st.current_section, st.current_question⟩
  let spoken :=
    if slot_name = "surgeries_date" || slot_name = "immunizations_date" then
      format_date_for_speech final_response
    else final_response
  let prompt0 :=
    if slot_name ∈ FREE_TEXT_SLOTS then env.pick (FREE_TEXT_CONFIRMATIONS spoken)
    else env.pick (STRUCTURED_CONFIRMATIONS (slotDisplay slot_name) spoken)
  let confirmation_prompt := add_short_pause prompt0 800
  let st2 := { st with unconfirmed_answer := some pendingA,
                       awaiting_confirmation := true,
                       confirmation_prompt := some confirmation_prompt }
  .ok ⟨confirmation_prompt, some confirmation_prompt⟩ st2 []

/-- Speak the next question after a no-confirmation answer (lines
    1105-1119): a random acknowledgement prefixes it when the decision was
    NO. -/
def noconfSpeak (env : Env) (decision : String) (nq : QuestionData)
    (st : SessState) (saves : List PData) : StepResult :=
  if decision = "NO" then
    let ack := env.pick ACKNOWLEDGEMENTS
    .ok ⟨ack ++ " " ++ nq.question, some nq.question⟩ st saves
  else .ok ⟨nq.question, some nq.question⟩ st saves

/-- Advance to the next main question after a no-confirmation answer
    (lines 1076-1119). -/
def noconfAdvance (env : Env) (questions : Catalog) (st2 : SessState)
    (decision : String) (saves : List PData) : StepResult :=
  let st3 := { st2 with current_question := st2.current_question + 1 }
  -- lines 1080-1085: the session catalog is present and well-formed here
  match get_next_question questions st3.current_section st3.current_question with
  | some nq => noconfSpeak env decision nq st3 saves
  | none =>
    let st4 := { st3 with current_section := st3.current_section + 1, current_question := 0 }
    match get_next_question questions st4.current_section 0 with
    | some nq => noconfSpeak env decision nq st4 saves
    | none =>
      -- line 1102: `questions.get("closing", ...)`; the catalog carries one
      .ok ⟨questions.closing, none⟩ st4 saves

/-- The no-confirmation (binary medical-history) branch (lines 1026-1119). -/
def noconfPhase (env : Env) (questions : Catalog) (st : SessState)
    (qd : QuestionData) (slot_name final_response : String) : StepResult :=
  let pr := parse_yes_no_and_detail env.parseSvc final_response qd.question
  let decision := pr.1
  let detail := pr.2
  let question_id := qd.question_id
  let pd := setPd st.patient_data question_id slot_name (pyLower decision)
  let st2 := { st with patient_data := pd }
  let saves := [pd]   -- save_patient_data, line 1037
  let follow_ups := qd.follow_up
  if decision = "YES" then
    match detail with
    | some d =>
      -- lines 1045-1057: YES with detail → confirm the detail first
      match follow_ups with
      | [] => .err .indexError saves   -- line 1049: `follow_ups[0]` on an empty list
      | f0 :: _ =>
        let cp := "You mentioned: " ++ d ++ ". Is that correct?"
        let st3 := { st2 with current_followup_for := some question_id,
                              unconfirmed_followup := some ⟨question_id, f0.question,
                                f0.question_title.getD "response", d, 0⟩,
                              confirmation_prompt := some cp,
                              awaiting_followup_confirmation := true }
        .ok ⟨cp, some cp⟩ st3 saves
    | none =>
      match follow_ups with
      | f0 :: _ =>
        -- lines 1059-1071: YES with no detail but configured follow-ups
        let st3 := { st2 with current_followup_for := some question_id,
                              followup_lists := setFups st2.followup_lists question_id follow_ups,
                              unconfirmed_followup := some ⟨question_id, f0.question,
                                f0.question_title.getD "response", "", 0⟩,
                              awaiting_followup_confirmation := false }
        .ok ⟨f0.question, some f0.question⟩ st3 saves
      | [] =>
        -- lines 1073-1074: YES with no detail and no follow-ups
        noconfAdvance env questions st2 decision saves
  else noconfAdvance env questions st2 decision saves

/-- Normal validation for the current main question (lines 1023-1254). -/
def normalPhase (env : Env) (questions : Catalog) (st : SessState)
    (qd : QuestionData) (slot_value : String) : StepResult :=
  let final_response := pyStrip slot_value   -- line 1024
  let slot_name := qd.question_title
  if slot_name ∈ NO_CONFIRMATION_SLOTS then
    noconfPhase env questions st qd slot_name final_response
  else
    match slotBranch env qd slot_name final_response with
    | .reask speak ask => .ok ⟨speak, some ask⟩ st []
    | .proceed f pfnUpd =>
      let st1 := match pfnUpd with
        | some p => { st with patient_first_name := some p }
        | none => st
      storePendingAnswer env st1 qd slot_name f

/-- Repeat-request detection and the mid-follow-up answer phase (lines
    984-1021), then normal validation. -/
def afterConfirmPhases (env : Env) (questions : Catalog) (st : SessState)
    (qd : QuestionData) (slot_name question_text slot_value : String) : StepResult :=
  let followupMode := st.current_followup_for.isSome && !st.awaiting_followup_confirmation
  let repeat_check_question :=
    if followupMode then ((st.unconfirmed_followup.map (·.question_text)).getD "None")
    else qd.question
  -- lines 991-992: the repeat-request result is computed and then dropped —
  -- there is no return, so the turn always continues below.
  let _rephrased :=
    if is_repeat_request env.repeatSvc slot_value repeat_check_question then
      get_rephrased_question env.rephraseSvc repeat_check_question
    else none
  if followupMode then
    match st.unconfirmed_followup with
    | none =>
      -- lines 1002-1006: corrupted follow-up scratch state
      let st2 := { st with unconfirmed_followup := none,
                           awaiting_followup_confirmation := false }
      .ok ⟨"Sorry, something went wrong. Can you repeat that?", some "Can you repeat that?"⟩ st2 []
    | some u =>
      -- lines 1011-1021
      let raw_response := pyStrip slot_value
      let normalised := extract_information_with_gemini env.extractSvc question_text
        raw_response (some slot_name)
      let cp := "Just to confirm, you meant: " ++ normalised ++ ". Is that correct?"
      let st2 := { st with unconfirmed_followup := some { u with response := normalised },
                           awaiting_followup_confirmation := true,
                           confirmation_prompt := some cp }
      .ok ⟨cp, some cp⟩ st2 []
  else normalPhase env questions st qd slot_value

/-- The phase dispatcher after slot resolution (lines 718 onward). -/
def capturePhases (env : Env) (questions : Catalog) (st : SessState)
    (qd : QuestionData) (slot_name question_text slot_value : String) : StepResult :=
  if st.waiting_for_ready_confirmation then readinessPhase env questions st slot_value
  else
    match followupConfirmPhase env questions st slot_value with
    | some r => r
    | none =>
      if st.awaiting_confirmation then confirmPhase env questions st slot_value
      else afterConfirmPhases env questions st qd slot_name question_text slot_value

/-- The body after the catalog is available (lines 667-1254). -/
def captureMain (env : Env) (questions : Catalog) (st : SessState)
    (slot_value? : Option String) : StepResult :=
  let current_question_data? :=
    get_next_question questions st.current_section st.current_question
  let followupMode := st.current_followup_for.isSome && !st.awaiting_followup_confirmation
  match current_question_data? with
  | none =>
    match (if followupMode then st.unconfirmed_followup else none) with
    | some _ =>
      -- line 686-687: survey over
      .ok ⟨"No further questions. Thank you.", none⟩ st []
    | none =>
      -- lines 680/682: `.get` on `None` → AttributeError
      .err .attributeError []
  | some qd =>
    -- lines 672-698: the active slot name / question text, with the
    -- follow-up override applied when a follow-up answer is pending
    let sq_pair :=
      match (if followupMode then st.unconfirmed_followup else none) with
      | some u => (u.question_title, u.question_text)
      | none => (qd.question_title, qd.question)
    let slot_name := sq_pair.1
    let question_text := sq_pair.2
    match slot_value? with
    | none =>
      -- lines 710-711: no usable slot value
      .ok ⟨"Sorry, could you please repeat your " ++ slotDisplay slot_name ++ "?",
           some ("Can you repeat your " ++ slotDisplay slot_name ++ "?")⟩ st []
    | some slot_value =>
      capturePhases env questions st qd slot_name question_text slot_value

/-- One turn of `capture_answer_intent` (lines 616-1254). -/
def capture_answer_intent (env : Env) (st0 : SessState) (slot_value? : Option String) :
    StepResult :=
  -- lines 647-666: load the catalog and (re)initialise on a fresh session
  match st0.questions with
  | none =>
    match env.fetched with
    | none => .ok ⟨retrieve_error_mg, some retrieve_error_mg⟩ st0 []
    | some raw =>
      let qs := loadQuestions raw
      let st := { st0 with questions := some qs, current_section := 0,
                           current_question := 0, patient_data := [] }
      captureMain env qs st slot_value?
  | some qs => captureMain env qs st0 slot_value?

/-! ## Concrete fixtures used by witnesses and counterexamples -/

/-- A deterministic stand-in for `random.choice`. -/
def pick0 : List String → String := fun l => l.headD ""

def fupEg : FollowupRec := ⟨"Which ones (e.g. nuts)?", some "allergy_type"⟩

def qAddress : QuestionData := ⟨"q0_0", "home_address", "What is your home address?", []⟩

def qName : QuestionData := ⟨"q0_1", "name", "What is your name?", []⟩

def qAllergies : QuestionData := ⟨"q1_0", "allergies", "Do you have any allergies?", [fupEg]⟩

def qChildren : QuestionData := ⟨"q1_1", "children", "Do you have children?", []⟩

/-- A two-section catalog fixture (already in loaded/normalised form, as
    stored in the session). -/
def catMain : Catalog :=
  ⟨"Welcome. Ready to begin?", "Goodbye and thanks.",
   [⟨[qAddress, qName]⟩, ⟨[qAllergies, qChildren]⟩]⟩

/-- An answer-mode session state on `catMain` at the given indices. -/
def stAt (s q : Nat) : SessState :=
  ⟨some catMain, s, q, [], false, false, false, none, none, none, [], none, none⟩

/-- An environment with every service call failing and deterministic
    choices. -/
def envBase : Env := ⟨.exn, .exn, .exn, .exn, .exn, .exn, .exn, none, pick0⟩

def dupRec : RespRec := ⟨"q0_0", "home address", "1 X St", 0⟩

/-- A store that already holds two records for one key (a state the upsert
    itself never produces). -/
def dupStore : List PatientDoc := [⟨1, 1, none, [dupRec, dupRec]⟩]

/-- Environment for the C4 failing input: the yes/no-with-detail parse
    returns YES with a detail. -/
def envC4 : Env := ⟨.exn, .ok (some "YES|two kids"), .exn, .exn, .exn, .exn, .exn, none, pick0⟩

/-- The C4 failing turn: `children` (a no-confirmation slot with no
    configured follow-ups) at indices (1,1), answered YES with a detail. -/
def c4_run : StepResult :=
  capture_answer_intent envC4 (stAt 1 1) (some "yes I have two kids")

/-- Environment for C5/C6: repeat-request detection fires; validation
    answers VALID; the rephrase service succeeds (C5) with a rephrased
    question. -/
def envC5 : Env :=
  ⟨.exn, .exn, .ok (some "YES"), .ok (some "VALID"), .exn,
   .ok (some "Where do you live?"), .exn, none, pick0⟩

/-- The C5 failing turn: a repeat request against the home-address
    question. -/
def c5_run : StepResult :=
  capture_answer_intent envC5 (stAt 0 0) (some "can you repeat that")

/-- Environment for the C6 counterexample: repeat-request detection fires
    but the rephrase service raises. -/
def envC6 : Env :=
  ⟨.exn, .exn, .ok (some "YES"), .ok (some "VALID"), .exn, .exn, .exn, none, pick0⟩

def c6_run : StepResult :=
  capture_answer_intent envC6 (stAt 0 0) (some "can you repeat that")

/-- A pending main answer for the home-address question at (0,0). -/
def pAddr : PendingAnswer :=
  ⟨"q0_0", "home_address", "What is your home address?", "1 X St", 0, 0⟩

/-- A session awaiting confirmation of `pAddr`. -/
def stConfAddr : SessState :=
  ⟨some catMain, 0, 0, [], false, true, false, none, some pAddr, none, [],
   some "confirm?", none⟩

/-- Environment whose yes/no classification answers NO. -/
def envNoDec : Env := ⟨.ok (some "no"), .exn, .exn, .exn, .exn, .exn, .exn, none, pick0⟩

def c7_run : StepResult := capture_answer_intent envNoDec stConfAddr (some "no")

/-- Raw (pre-normalisation) catalog for C10: both the main question and its
    follow-up contain `(e.g. ...)`. -/
def rawCatC10 : Catalog :=
  ⟨"Welcome. Ready to begin?", "Bye.",
   [⟨[⟨"q0_0", "allergies", "Do you have any allergies? (e.g. think of common ones)",
      [⟨"Which ones (e.g. nuts)?", some "allergy_type"⟩]⟩]⟩]⟩

/-- Answer-mode session over the loaded form of `rawCatC10`. -/
def stC10 : SessState :=
  ⟨some (loadQuestions rawCatC10), 0, 0, [], false, false, false, none, none, none, [],
   none, none⟩

/-- Environment for C10: the parse answers YES with no detail, so the first
    configured follow-up is asked. -/
def envC10 : Env := ⟨.exn, .ok (some "YES|"), .exn, .exn, .exn, .exn, .exn, none, pick0⟩

def c10_run : StepResult := capture_answer_intent envC10 stC10 (some "yes")

/-- Readiness-mode session over the loaded form of `rawCatC10`. -/
def stReadyC10 : SessState :=
  ⟨some (loadQuestions rawCatC10), 0, 0, [], true, false, false, none, none, none, [],
   none, none⟩

/-- Environment whose yes/no classification answers yes. -/
def envYesDec : Env := ⟨.ok (some "yes"), .exn, .exn, .exn, .exn, .exn, .exn, none, pick0⟩

/-- Environment whose yes/no-with-detail parse answers YES with a detail. -/
def envC2 : Env :=
  ⟨.exn, .ok (some "YES|peanut allergy"), .exn, .exn, .exn, .exn, .exn, none, pick0⟩

/-- A pending follow-up answer for the allergies question. -/
def pFax : PendingFollowup :=
  ⟨"q1_0", "Which ones (e.g. nuts)?", "allergy_type", "peanut allergy", 0⟩

/-- A session awaiting follow-up confirmation of `pFax`. -/
def stFupConf : SessState :=
  ⟨some catMain, 1, 0, [("q1_0", "allergies", "yes")], false, false, true, some "q1_0",
   none, some pFax, [], some "You mentioned: peanut allergy. Is that correct?", none⟩

/-- Environment whose yes/no-with-detail parse answers NO with no
    detail. -/
def envNoParse : Env := ⟨.exn, .ok (some "NO|"), .exn, .exn, .exn, .exn, .exn, none, pick0⟩

/-! ## Shared lemmas -/

theorem lookupPd_setPd_self (pd : PData) (k label value : String) :
    lookupPd (setPd pd k label value) k = some (label, value) := by
  induction pd with
  | nil => simp [setPd, lookupPd, List.find?]
  | cons e t ih =>
    by_cases h : e.1 = k
    · simp [setPd, h, lookupPd, List.find?]
    · simp only [setPd, if_neg h]
      simpa [lookupPd, List.find?_cons, h] using ih

theorem lookupPd_setPd_other (pd : PData) (k k2 label value : String) (h : k2 ≠ k) :
    lookupPd (setPd pd k label value) k2 = lookupPd pd k2 := by
  induction pd with
  | nil => simp [setPd, lookupPd, List.find?, Ne.symm h]
  | cons e t ih =>
    by_cases he : e.1 = k
    · subst he
      simp [setPd, lookupPd, List.find?_cons, Ne.symm h]
    · simp only [setPd, if_neg he]
      by_cases he2 : e.1 = k2
      · simp [lookupPd, List.find?_cons, he2]
      · simpa [lookupPd, List.find?_cons, he2] using ih

theorem lexLe_refl (a : Nat × Nat) : lexLe a a := Or.inr ⟨rfl, le_refl _⟩

theorem lexLe_next_question (s q : Nat) : lexLe (s, q) (s, q + 1) :=
  Or.inr ⟨rfl, Nat.le_succ q⟩

theorem lexLe_next_section (s q : Nat) : lexLe (s, q) (s + 1, 0) :=
  Or.inl (Nat.lt_succ_self s)

/-! ### Store lemmas for the upsert -/

theorem setFirstRec_length (qid label value : String) (now : Nat) (rs : List RespRec) :
    (setFirstRec qid label value now rs).length = rs.length := by
  induction rs with
  | nil => rfl
  | cons r t ih =>
    by_cases h : r.question_id = qid <;> simp [setFirstRec, h, ih]

theorem setFirstRec_filter_length (qid label value : String) (now : Nat) (rs : List RespRec) :
    ((setFirstRec qid label value now rs).filter (·.question_id = qid)).length =
      (rs.filter (·.question_id = qid)).length := by
  induction rs with
  | nil => rfl
  | cons r t ih =>
    by_cases h : r.question_id = qid <;>
      simp [setFirstRec, h, List.filter_cons, ih]

theorem filter_len_of_any_false {l : List RespRec} {qid : String}
    (h : l.any (·.question_id = qid) = false) :
    (l.filter (·.question_id = qid)).length = 0 := by
  induction l with
  | nil => rfl
  | cons r t ih =>
    simp only [List.any_cons, Bool.or_eq_false_iff] at h
    simp [List.filter_cons, h.1, ih h.2]

theorem any_false_of_filter_len {l : List RespRec} {qid : String}
    (h : (l.filter (·.question_id = qid)).length = 0) :
    l.any (·.question_id = qid) = false := by
  induction l with
  | nil => rfl
  | cons r t ih =>
    by_cases hr : r.question_id = qid
    · simp [List.filter_cons, hr] at h
    · simp only [List.filter_cons, hr] at h
      simp only [List.any_cons, hr]
      simpa using ih (by simpa using h)

theorem countQ_cons (d : PatientDoc) (ds : List PatientDoc) (sid pid : Nat) (qid : String) :
    countQ (d :: ds) sid pid qid = docCount d sid pid qid + countQ ds sid pid qid := rfl

theorem matchesQ1_false_of_docCount_zero {d : PatientDoc} {sid pid : Nat} {qid : String}
    (h : docCount d sid pid qid = 0) : matchesQ1 sid pid qid d = false := by
  unfold docCount at h
  unfold matchesQ1
  cases hb : (decide (d.session_id = sid) && decide (d.patient_id = pid)) with
  | false => simp [hb]
  | true =>
    rw [if_pos (by simpa using hb)] at h
    simp [hb, any_false_of_filter_len h]

theorem docCount_zero_of_matchesQ1_false {d : PatientDoc} {sid pid : Nat} {qid : String}
    (h : matchesQ1 sid pid qid d = false) : docCount d sid pid qid = 0 := by
  unfold matchesQ1 at h
  unfold docCount
  cases hb : (decide (d.session_id = sid) && decide (d.patient_id = pid)) with
  | false => simp [hb]
  | true =>
    rw [hb, Bool.true_and] at h
    simp [hb, filter_len_of_any_false h]

theorem updateFirstDoc_none_of_countQ_zero (sid pid : Nat) (qid : String)
    (f : PatientDoc → PatientDoc) (store : List PatientDoc)
    (h : countQ store sid pid qid = 0) :
    updateFirstDoc (matchesQ1 sid pid qid) f store = none := by
  induction store with
  | nil => rfl
  | cons d ds ih =>
    rw [countQ_cons] at h
    have h1 : docCount d sid pid qid = 0 := by omega
    have h2 : countQ ds sid pid qid = 0 := by omega
    simp [updateFirstDoc, matchesQ1_false_of_docCount_zero h1, ih h2]

theorem updateFirstDoc_isSome_of_countQ_pos (sid pid : Nat) (qid : String)
    (f : PatientDoc → PatientDoc) (store : List PatientDoc)
    (h : countQ store sid pid qid ≠ 0) :
    (updateFirstDoc (matchesQ1 sid pid qid) f store).isSome := by
  induction store with
  | nil => simp [countQ] at h
  | cons d ds ih =>
    cases hd : matchesQ1 sid pid qid d with
    | true => simp [updateFirstDoc, hd]
    | false =>
      have h2 : countQ ds sid pid qid ≠ 0 := by
        rw [countQ_cons, docCount_zero_of_matchesQ1_false hd] at h
        omega
      have := ih h2
      simp only [updateFirstDoc, hd, Bool.false_eq_true, if_false]
      cases hu : updateFirstDoc (matchesQ1 sid pid qid) f ds with
      | none => rw [hu] at this; simp at this
      | some s => simp [hu]

theorem upsertUpdate_counts (sid pid : Nat) (qid label value : String) (sstart now : Nat)
    (store s' : List PatientDoc)
    (h : updateFirstDoc (matchesQ1 sid pid qid)
      (fun d => { d with session_info := some (sstart, now),
                         response := setFirstRec qid label value now d.response }) store
      = some s') :
    countQ s' sid pid qid = countQ store sid pid qid ∧ totalRecs s' = totalRecs store := by
  induction store generalizing s' with
  | nil => simp [updateFirstDoc] at h
  | cons d ds ih =>
    cases hd : matchesQ1 sid pid qid d with
    | true =>
      simp only [updateFirstDoc, hd, if_true, Option.some.injEq] at h
      subst h
      constructor
      · simp [countQ_cons, docCount, setFirstRec_filter_length]
      · simp [totalRecs, setFirstRec_length]
    | false =>
      simp only [updateFirstDoc, hd, Bool.false_eq_true, if_false,
        Option.map_eq_some'] at h
      obtain ⟨s'', hu, rfl⟩ := h
      have := ih s'' hu
      constructor
      · simp [countQ_cons, this.1]
      · simp [totalRecs, this.2]

theorem pushOrCreate_countQ (sid pid : Nat) (qid label value : String) (now : Nat)
    (store : List PatientDoc) :
    countQ (pushOrCreate sid pid ⟨qid, label, value, now⟩ store) sid pid qid =
      countQ store sid pid qid + 1 := by
  induction store with
  | nil => simp [pushOrCreate, countQ, docCount, List.filter]
  | cons d ds ih =>
    cases hb : (decide (d.session_id = sid) && decide (d.patient_id = pid)) with
    | true =>
      simp only [pushOrCreate, hb, if_true]
      simp [countQ_cons, docCount, hb, List.filter_append, List.filter]
      omega
    | false =>
      simp only [pushOrCreate, hb, Bool.false_eq_true, if_false]
      simp [countQ_cons, docCount, hb, ih]

/-- Upserting into a store that holds exactly one record for the key keeps
    the count at one and the total record count unchanged. -/
theorem upsert_of_count_one (sid pid : Nat) (qid label value : String) (sstart now : Nat)
    (store : List PatientDoc) (h : countQ store sid pid qid = 1) :
    countQ (upsertAnswer sid pid qid label value sstart now store) sid pid qid = 1 ∧
    totalRecs (upsertAnswer sid pid qid label value sstart now store) = totalRecs store := by
  unfold upsertAnswer
  have hpos : countQ store sid pid qid ≠ 0 := by omega
  have hs := updateFirstDoc_isSome_of_countQ_pos sid pid qid
    (fun d => { d with session_info := some (sstart, now),
                       response := setFirstRec qid label value now d.response }) store hpos
  cases hu : updateFirstDoc (matchesQ1 sid pid qid)
      (fun d => { d with session_info := some (sstart, now),
                         response := setFirstRec qid label value now d.response }) store with
  | none => rw [hu] at hs; simp at hs
  | some s' =>
    have hc := upsertUpdate_counts sid pid qid label value sstart now store s' hu
    simp only
    exact ⟨hc.1.trans h, hc.2⟩

/-! ## Claim C8 -/

/-- C8 counterexample: as stated over *any* store state the claim fails —
    on a store that already holds two records for the key, running the
    upsert twice with the same key and value still leaves two logical
    records, not one (the positional update only rewrites the first
    matching array element and never deduplicates). -/
theorem c8_upsert_any_store_cex :
    countQ (upsertAnswer 1 1 "q0_0" "home address" "1 X St" 0 5
      (upsertAnswer 1 1 "q0_0" "home address" "1 X St" 0 5 dupStore)) 1 1 "q0_0" = 2 := by
  decide

/-- C8 (amended): for every store state holding at most one logical
    response record for the key `(session_id, patient_id, question_id)` —
    in particular every state the upsert itself builds — running
    `upsertAnswer` twice with the same key and value leaves exactly one
    logical record for that key, and the second run updates in place
    rather than appending (the total record count does not change). -/
theorem c8_upsert_idempotent_per_key (store : List PatientDoc) (sid pid : Nat)
    (qid label value : String) (sstart now : Nat)
    (h : countQ store sid pid qid ≤ 1) :
    countQ (upsertAnswer sid pid qid label value sstart now store) sid pid qid = 1 ∧
    countQ (upsertAnswer sid pid qid label value sstart now
      (upsertAnswer sid pid qid label value sstart now store)) sid pid qid = 1 ∧
    totalRecs (upsertAnswer sid pid qid label value sstart now
      (upsertAnswer sid pid qid label value sstart now store)) =
      totalRecs (upsertAnswer sid pid qid label value sstart now store) := by
  have h1 : countQ (upsertAnswer sid pid qid label value sstart now store) sid pid qid = 1 := by
    rcases Nat.lt_or_ge (countQ store sid pid qid) 1 with hc | hc
    · have hc0 : countQ store sid pid qid = 0 := by omega
      unfold upsertAnswer
      rw [updateFirstDoc_none_of_countQ_zero sid pid qid _ store hc0]
      rw [pushOrCreate_countQ sid pid qid label value now store, hc0]
    · have hc1 : countQ store sid pid qid = 1 := by omega
      exact (upsert_of_count_one sid pid qid label value sstart now store hc1).1
  have h2 := upsert_of_count_one sid pid qid label value sstart now
    (upsertAnswer sid pid qid label value sstart now store) h1
  exact ⟨h1, h2.1, h2.2⟩

/-! ## Reduction lemmas: the turn function on each phase -/

/-- In answer mode (all flags clear) with a current question, the turn is
    the normal-validation phase. -/
theorem capture_to_normalPhase (env : Env) (cat : Catalog) (st : SessState) (u : String)
    (qd : QuestionData)
    (hq : st.questions = some cat)
    (hw : st.waiting_for_ready_confirmation = false)
    (hac : st.awaiting_confirmation = false)
    (hafc : st.awaiting_followup_confirmation = false)
    (hcf : st.current_followup_for = none)
    (hcur : get_next_question cat st.current_section st.current_question = some qd) :
    capture_answer_intent env st (some u) = normalPhase env cat st qd u := by
  obtain ⟨qs, cs, cq, pd, w, ac, afc, cf, ua, uf, fl, cpr, pfn⟩ := st
  simp only at hq hw hac hafc hcf
  subst hq hw hac hafc hcf
  simp [capture_answer_intent, captureMain, capturePhases, followupConfirmPhase,
    afterConfirmPhases, hcur]

/-- In confirmation mode with a current question, the turn is the
    confirmation phase. -/
theorem capture_to_confirmPhase (env : Env) (cat : Catalog) (st : SessState) (u : String)
    (qd0 : QuestionData)
    (hq : st.questions = some cat)
    (hw : st.waiting_for_ready_confirmation = false)
    (hac : st.awaiting_confirmation = true)
    (hafc : st.awaiting_followup_confirmation = false)
    (hcf : st.current_followup_for = none)
    (hcur : get_next_question cat st.current_section st.current_question = some qd0) :
    capture_answer_intent env st (some u) = confirmPhase env cat st u := by
  obtain ⟨qs, cs, cq, pd, w, ac, afc, cf, ua, uf, fl, cpr, pfn⟩ := st
  simp only at hq hw hac hafc hcf
  subst hq hw hac hafc hcf
  simp [capture_answer_intent, captureMain, capturePhases, followupConfirmPhase, hcur]

/-- In follow-up confirmation mode with a YES classification, the turn is
    the follow-up commit. -/
theorem capture_to_followupConfirmYes (env : Env) (cat : Catalog) (st : SessState)
    (u cp : String) (p : PendingFollowup) (qd0 : QuestionData)
    (hq : st.questions = some cat)
    (hw : st.waiting_for_ready_confirmation = false)
    (hafc : st.awaiting_followup_confirmation = true)
    (huf : st.unconfirmed_followup = some p)
    (hcp : st.confirmation_prompt = some cp)
    (hcur : get_next_question cat st.current_section st.current_question = some qd0)
    (hdec : check_yes_no_with_gemini env.yesNoSvc u cp = "YES") :
    capture_answer_intent env st (some u) = followupConfirmYes env cat st p := by
  obtain ⟨qs, cs, cq, pd, w, ac, afc, cf, ua, uf, fl, cpr, pfn⟩ := st
  simp only at hq hw hafc huf hcp
  subst hq hw hafc huf hcp
  simp [capture_answer_intent, captureMain, capturePhases, followupConfirmPhase, hcur, hdec]

/-! ## Claim C1 -/

/-- The per-slot validation chain never writes `patient_data`, never
    persists, and stores the candidate only in `unconfirmed_answer`. -/
theorem normalPhase_not_noconf_spec (env : Env) (cat : Catalog) (st : SessState)
    (qd : QuestionData) (u : String)
    (hslot : qd.question_title ∉ NO_CONFIRMATION_SLOTS)
    (hac : st.awaiting_confirmation = false) :
    (normalPhase env cat st qd u).saves = [] ∧
    ∀ st2, (normalPhase env cat st qd u).okState = some st2 →
      st2.patient_data = st.patient_data ∧
      (st2.awaiting_confirmation = true →
        ∃ pa, st2.unconfirmed_answer = some pa ∧ pa.question_id = qd.question_id ∧
          pa.question_title = qd.question_title) := by
  unfold normalPhase
  rw [if_neg hslot]
  cases hsb : slotBranch env qd qd.question_title (pyStrip u) with
  | reask s a =>
    refine ⟨rfl, fun st2 h => ?_⟩
    simp only [StepResult.okState, Option.some.injEq] at h
    subst h
    exact ⟨rfl, fun hc => absurd (hac ▸ hc) (by simp)⟩
  | proceed f pfnU =>
    cases pfnU with
    | none =>
      refine ⟨rfl, fun st2 h => ?_⟩
      simp only [storePendingAnswer, StepResult.okState, Option.some.injEq] at h
      subst h
      exact ⟨rfl, fun _ => ⟨_, rfl, rfl, rfl⟩⟩
    | some pf =>
      refine ⟨rfl, fun st2 h => ?_⟩
      simp only [storePendingAnswer, StepResult.okState, Option.some.injEq] at h
      subst h
      exact ⟨rfl, fun _ => ⟨_, rfl, rfl, rfl⟩⟩

/-- The confirmation phase without a YES never writes or persists. -/
theorem confirmPhase_nonyes_spec (env : Env) (cat : Catalog) (st : SessState) (u cp : String)
    (hcp : st.confirmation_prompt = some cp)
    (hdec : check_yes_no_with_gemini env.yesNoSvc u cp ≠ "YES") :
    (confirmPhase env cat st u).saves = [] ∧
    ∀ st2, (confirmPhase env cat st u).okState = some st2 →
      st2.patient_data = st.patient_data := by
  unfold confirmPhase
  rw [hcp]
  simp only
  rw [if_neg hdec]
  by_cases hno : check_yes_no_with_gemini env.yesNoSvc u cp = "NO"
  · rw [if_pos hno]
    cases hua : st.unconfirmed_answer with
    | none => exact ⟨rfl, fun st2 h => by simp [StepResult.okState] at h⟩
    | some p =>
      refine ⟨rfl, fun st2 h => ?_⟩
      simp only [StepResult.okState, Option.some.injEq] at h
      subst h
      rfl
  · rw [if_neg hno]
    refine ⟨rfl, fun st2 h => ?_⟩
    simp only [StepResult.okState, Option.some.injEq] at h
    subst h
    rfl

/-- C1: for a question whose slot is outside the no-confirmation set, no
    entry is written to `patient_data` (or persisted) by the answer turn —
    the candidate lives only in the `unconfirmed_answer` scratch field —
    and a confirmation turn classified anything but YES also leaves
    `patient_data` unchanged and persists nothing. -/
theorem c1_no_write_before_yes :
    (∀ (env : Env) (cat : Catalog) (st : SessState) (u : String) (qd : QuestionData),
      st.questions = some cat →
      st.waiting_for_ready_confirmation = false →
      st.awaiting_confirmation = false →
      st.awaiting_followup_confirmation = false →
      st.current_followup_for = none →
      get_next_question cat st.current_section st.current_question = some qd →
      qd.question_title ∉ NO_CONFIRMATION_SLOTS →
      (capture_answer_intent env st (some u)).saves = [] ∧
      ∀ st2, (capture_answer_intent env st (some u)).okState = some st2 →
        st2.patient_data = st.patient_data ∧
        (st2.awaiting_confirmation = true →
          ∃ pa, st2.unconfirmed_answer = some pa ∧ pa.question_id = qd.question_id ∧
            pa.question_title = qd.question_title)) ∧
    (∀ (env : Env) (cat : Catalog) (st : SessState) (u cp : String) (qd0 : QuestionData),
      st.questions = some cat →
      st.waiting_for_ready_confirmation = false →
      st.awaiting_confirmation = true →
      st.awaiting_followup_confirmation = false →
      st.current_followup_for = none →
      st.confirmation_prompt = some cp →
      get_next_question cat st.current_section st.current_question = some qd0 →
      check_yes_no_with_gemini env.yesNoSvc u cp ≠ "YES" →
      (capture_answer_intent env st (some u)).saves = [] ∧
      ∀ st2, (capture_answer_intent env st (some u)).okState = some st2 →
        st2.patient_data = st.patient_data) := by
  constructor
  · intro env cat st u qd hq hw hac hafc hcf hcur hslot
    rw [capture_to_normalPhase env cat st u qd hq hw hac hafc hcf hcur]
    exact normalPhase_not_noconf_spec env cat st qd u hslot hac
  · intro env cat st u cp qd0 hq hw hac hafc hcf hcp hcur hdec
    rw [capture_to_confirmPhase env cat st u qd0 hq hw hac hafc hcf hcur]
    exact confirmPhase_nonyes_spec env cat st u cp hcp hdec

/-- C1 witness: the answer turn on the home-address question stores the
    pending answer without touching `patient_data`, and a NO at
    confirmation also leaves it untouched. -/
theorem c1_no_write_before_yes_witness :
    ((capture_answer_intent envC6 (stAt 0 0) (some "can you repeat that")).saves = [] ∧
      ∀ st2, (capture_answer_intent envC6 (stAt 0 0)
          (some "can you repeat that")).okState = some st2 →
        st2.patient_data = (stAt 0 0).patient_data ∧
        (st2.awaiting_confirmation = true →
          ∃ pa, st2.unconfirmed_answer = some pa ∧ pa.question_id = qAddress.question_id ∧
            pa.question_title = qAddress.question_title)) ∧
    ((capture_answer_intent envNoDec stConfAddr (some "no")).saves = [] ∧
      ∀ st2, (capture_answer_intent envNoDec stConfAddr (some "no")).okState = some st2 →
        st2.patient_data = stConfAddr.patient_data) :=
  ⟨c1_no_write_before_yes.1 envC6 catMain (stAt 0 0) "can you repeat that" qAddress
      rfl rfl rfl rfl rfl rfl (by decide),
   c1_no_write_before_yes.2 envNoDec catMain stConfAddr "no" "confirm?" qAddress
      rfl rfl rfl rfl rfl rfl rfl (by decide)⟩

/-! ## Claim C2 -/

theorem noconfSpeak_spec (env : Env) (dec : String) (nq : QuestionData) (st : SessState)
    (saves : List PData) :
    (noconfSpeak env dec nq st saves).saves = saves ∧
    (noconfSpeak env dec nq st saves).okState = some st := by
  unfold noconfSpeak
  by_cases hd : dec = "NO" <;> simp [hd, StepResult.saves, StepResult.okState]

/-- Next-question advancement after a no-confirmation answer does not touch
    `patient_data`, the flags, or the pending follow-up. -/
theorem noconfAdvance_spec (env : Env) (cat : Catalog) (st2 : SessState) (dec : String)
    (saves : List PData) :
    (noconfAdvance env cat st2 dec saves).saves = saves ∧
    ∀ stR, (noconfAdvance env cat st2 dec saves).okState = some stR →
      stR.patient_data = st2.patient_data ∧
      stR.awaiting_confirmation = st2.awaiting_confirmation ∧
      stR.unconfirmed_followup = st2.unconfirmed_followup ∧
      stR.awaiting_followup_confirmation = st2.awaiting_followup_confirmation := by
  obtain ⟨qs, cs, cq, pd, w, ac, afc, cf, ua, uf, fl, cpr, pfn⟩ := st2
  unfold noconfAdvance
  dsimp only
  cases h1 : get_next_question cat cs (cq + 1) with
  | some nq =>
    have hs := noconfSpeak_spec env dec nq ⟨qs, cs, cq + 1, pd, w, ac, afc, cf, ua, uf, fl, cpr, pfn⟩ saves
    refine ⟨hs.1, fun stR h => ?_⟩
    rw [hs.2] at h
    simp only [Option.some.injEq] at h
    subst h
    exact ⟨rfl, rfl, rfl, rfl⟩
  | none =>
    cases h2 : get_next_question cat (cs + 1) 0 with
    | some nq =>
      have hs := noconfSpeak_spec env dec nq ⟨qs, cs + 1, 0, pd, w, ac, afc, cf, ua, uf, fl, cpr, pfn⟩ saves
      refine ⟨hs.1, fun stR h => ?_⟩
      rw [hs.2] at h
      simp only [Option.some.injEq] at h
      subst h
      exact ⟨rfl, rfl, rfl, rfl⟩
    | none =>
      refine ⟨rfl, fun stR h => ?_⟩
      simp only [StepResult.okState, Option.some.injEq] at h
      subst h
      exact ⟨rfl, rfl, rfl, rfl⟩

/-- The no-confirmation branch writes the lowercased YES/NO decision under
    the main question id and persists that snapshot in the same turn; the
    confirmation flag stays clear; a YES with a detail and configured
    follow-ups stores the detail only as the pending follow-up answer. -/
theorem noconfPhase_spec (env : Env) (cat : Catalog) (st : SessState) (qd : QuestionData)
    (fr : String) (hac : st.awaiting_confirmation = false) :
    (noconfPhase env cat st qd qd.question_title fr).saves =
      [setPd st.patient_data qd.question_id qd.question_title
        (pyLower (parse_yes_no_and_detail env.parseSvc fr qd.question).1)] ∧
    ∀ st2, (noconfPhase env cat st qd qd.question_title fr).okState = some st2 →
      st2.patient_data = setPd st.patient_data qd.question_id qd.question_title
        (pyLower (parse_yes_no_and_detail env.parseSvc fr qd.question).1) ∧
      st2.awaiting_confirmation = false ∧
      ((parse_yes_no_and_detail env.parseSvc fr qd.question).1 = "YES" →
        ∀ d, (parse_yes_no_and_detail env.parseSvc fr qd.question).2 = some d →
        ∀ f0 rest, qd.follow_up = f0 :: rest →
          st2.unconfirmed_followup = some ⟨qd.question_id, f0.question,
            f0.question_title.getD "response", d, 0⟩ ∧
          st2.awaiting_followup_confirmation = true) := by
  obtain ⟨qs, cs, cq, pd, w, ac, afc, cf, ua, uf, fl, cpr, pfn⟩ := st
  simp only at hac
  subst hac
  unfold noconfPhase
  dsimp only
  by_cases hy : (parse_yes_no_and_detail env.parseSvc fr qd.question).1 = "YES"
  · rw [if_pos hy]
    cases hdet : (parse_yes_no_and_detail env.parseSvc fr qd.question).2 with
    | some d =>
      cases hfu : qd.follow_up with
      | nil => exact ⟨rfl, fun st2 h => by simp [StepResult.okState] at h⟩
      | cons f0 rest =>
        refine ⟨rfl, fun st2 h => ?_⟩
        simp only [StepResult.okState, Option.some.injEq] at h
        subst h
        refine ⟨rfl, rfl, fun _ d2 hd2 f0x restx hfux => ?_⟩
        simp only [Option.some.injEq] at hd2
        simp only [List.cons.injEq] at hfux
        subst hd2
        rw [← hfux.1]
        exact ⟨rfl, rfl⟩
    | none =>
      cases hfu : qd.follow_up with
      | cons f0 rest =>
        refine ⟨rfl, fun st2 h => ?_⟩
        simp only [StepResult.okState, Option.some.injEq] at h
        subst h
        refine ⟨rfl, rfl, fun _ d2 hd2 f0x restx hfux => ?_⟩
        exact absurd hd2 (by simp)
      | nil =>
        have hadv := noconfAdvance_spec env cat
          ⟨qs, cs, cq, setPd pd qd.question_id qd.question_title
            (pyLower (parse_yes_no_and_detail env.parseSvc fr qd.question).1),
           w, false, afc, cf, ua, uf, fl, cpr, pfn⟩
          (parse_yes_no_and_detail env.parseSvc fr qd.question).1
          [setPd pd qd.question_id qd.question_title
            (pyLower (parse_yes_no_and_detail env.parseSvc fr qd.question).1)]
        refine ⟨hadv.1, fun st2 h => ?_⟩
        have h2 := hadv.2 st2 h
        refine ⟨h2.1, h2.2.1, fun _ d2 hd2 f0x restx hfux => ?_⟩
        exact absurd hd2 (by simp)
  · rw [if_neg hy]
    have hadv := noconfAdvance_spec env cat
      ⟨qs, cs, cq, setPd pd qd.question_id qd.question_title
        (pyLower (parse_yes_no_and_detail env.parseSvc fr qd.question).1),
       w, false, afc, cf, ua, uf, fl, cpr, pfn⟩
      (parse_yes_no_and_detail env.parseSvc fr qd.question).1
      [setPd pd qd.question_id qd.question_title
        (pyLower (parse_yes_no_and_detail env.parseSvc fr qd.question).1)]
    refine ⟨hadv.1, fun st2 h => ?_⟩
    have h2 := hadv.2 st2 h
    exact ⟨h2.1, h2.2.1, fun hy2 => absurd hy2 hy⟩

/-- Committing a confirmed follow-up persists it under the composite
    follow-up id in the same turn. -/
theorem followupConfirmYes_saves_spec (env : Env) (cat : Catalog) (st : SessState)
    (p : PendingFollowup) :
    (followupConfirmYes env cat st p).saves =
      [setPd st.patient_data (p.question_id ++ "_" ++ toString p.followup_index)
        p.question_title p.response] ∧
    ∀ st2, (followupConfirmYes env cat st p).okState = some st2 →
      st2.patient_data = setPd st.patient_data
        (p.question_id ++ "_" ++ toString p.followup_index) p.question_title p.response := by
  obtain ⟨qs, cs, cq, pd, w, ac, afc, cf, ua, uf, fl, cpr, pfn⟩ := st
  unfold followupConfirmYes
  dsimp only
  cases h1 : (lookupFups fl p.question_id).get? (p.followup_index + 1) with
  | some nf =>
    refine ⟨rfl, fun st2 h => ?_⟩
    simp only [StepResult.okState, Option.some.injEq] at h
    subst h
    rfl
  | none =>
    cases h2 : get_next_question cat cs (cq + 1) with
    | some nq =>
      refine ⟨rfl, fun st2 h => ?_⟩
      simp only [StepResult.okState, Option.some.injEq] at h
      subst h
      rfl
    | none =>
      cases h3 : get_next_question cat (cs + 1) 0 with
      | some nq =>
        refine ⟨rfl, fun st2 h => ?_⟩
        simp only [StepResult.okState, Option.some.injEq] at h
        subst h
        rfl
      | none =>
        refine ⟨rfl, fun st2 h => ?_⟩
        simp only [StepResult.okState, Option.some.injEq] at h
        subst h
        rfl

/-- A NO or UNCLEAR at follow-up confirmation persists nothing and leaves
    `patient_data` unchanged. -/
theorem capture_followupConfirm_nonyes (env : Env) (cat : Catalog) (st : SessState)
    (u cp : String) (p : PendingFollowup) (qd0 : QuestionData)
    (hq : st.questions = some cat)
    (hw : st.waiting_for_ready_confirmation = false)
    (hafc : st.awaiting_followup_confirmation = true)
    (huf : st.unconfirmed_followup = some p)
    (hcp : st.confirmation_prompt = some cp)
    (hcur : get_next_question cat st.current_section st.current_question = some qd0)
    (hdec : check_yes_no_with_gemini env.yesNoSvc u cp = "NO" ∨
      check_yes_no_with_gemini env.yesNoSvc u cp = "UNCLEAR") :
    (capture_answer_intent env st (some u)).saves = [] ∧
    ∀ st2, (capture_answer_intent env st (some u)).okState = some st2 →
      st2.patient_data = st.patient_data := by
  obtain ⟨qs, cs, cq, pd, w, ac, afc, cf, ua, uf, fl, cpr, pfn⟩ := st
  simp only at hq hw hafc huf hcp
  subst hq hw hafc huf hcp
  rcases hdec with hd | hd <;>
    · simp only [capture_answer_intent, captureMain, capturePhases, followupConfirmPhase,
        hcur, hd]
      simp [StepResult.saves, StepResult.okState]

/-- C2: for a question whose slot is in the no-confirmation set, the answer
    turn writes the lowercased YES/NO classification to `patient_data`
    under the main question id and persists it in the same turn with no
    confirmation round-trip; an extracted detail is stored only as the
    pending follow-up answer (no other `patient_data` key changes); and the
    composite follow-up id `{question_id}_{followup_index}` is written and
    persisted exactly by a subsequent YES at follow-up confirmation, while
    NO/UNCLEAR there persist nothing. -/
theorem c2_noconf_immediate_write :
    (∀ (env : Env) (cat : Catalog) (st : SessState) (u : String) (qd : QuestionData),
      st.questions = some cat →
      st.waiting_for_ready_confirmation = false →
      st.awaiting_confirmation = false →
      st.awaiting_followup_confirmation = false →
      st.current_followup_for = none →
      get_next_question cat st.current_section st.current_question = some qd →
      qd.question_title ∈ NO_CONFIRMATION_SLOTS →
      (capture_answer_intent env st (some u)).saves =
        [setPd st.patient_data qd.question_id qd.question_title
          (pyLower (parse_yes_no_and_detail env.parseSvc (pyStrip u) qd.question).1)] ∧
      ∀ st2, (capture_answer_intent env st (some u)).okState = some st2 →
        lookupPd st2.patient_data qd.question_id =
          some (qd.question_title,
            pyLower (parse_yes_no_and_detail env.parseSvc (pyStrip u) qd.question).1) ∧
        (∀ k, k ≠ qd.question_id →
          lookupPd st2.patient_data k = lookupPd st.patient_data k) ∧
        st2.awaiting_confirmation = false ∧
        ((parse_yes_no_and_detail env.parseSvc (pyStrip u) qd.question).1 = "YES" →
          ∀ d, (parse_yes_no_and_detail env.parseSvc (pyStrip u) qd.question).2 = some d →
          ∀ f0 rest, qd.follow_up = f0 :: rest →
            st2.unconfirmed_followup = some ⟨qd.question_id, f0.question,
              f0.question_title.getD "response", d, 0⟩ ∧
            st2.awaiting_followup_confirmation = true)) ∧
    (∀ (env : Env) (cat : Catalog) (st : SessState) (u cp : String) (p : PendingFollowup)
      (qd0 : QuestionData),
      st.questions = some cat →
      st.waiting_for_ready_confirmation = false →
      st.awaiting_followup_confirmation = true →
      st.unconfirmed_followup = some p →
      st.confirmation_prompt = some cp →
      get_next_question cat st.current_section st.current_question = some qd0 →
      check_yes_no_with_gemini env.yesNoSvc u cp = "YES" →
      (capture_answer_intent env st (some u)).saves =
        [setPd st.patient_data (p.question_id ++ "_" ++ toString p.followup_index)
          p.question_title p.response] ∧
      ∀ st2, (capture_answer_intent env st (some u)).okState = some st2 →
        lookupPd st2.patient_data (p.question_id ++ "_" ++ toString p.followup_index) =
          some (p.question_title, p.response)) ∧
    (∀ (env : Env) (cat : Catalog) (st : SessState) (u cp : String) (p : PendingFollowup)
      (qd0 : QuestionData),
      st.questions = some cat →
      st.waiting_for_ready_confirmation = false →
      st.awaiting_followup_confirmation = true →
      st.unconfirmed_followup = some p →
      st.confirmation_prompt = some cp →
      get_next_question cat st.current_section st.current_question = some qd0 →
      (check_yes_no_with_gemini env.yesNoSvc u cp = "NO" ∨
        check_yes_no_with_gemini env.yesNoSvc u cp = "UNCLEAR") →
      (capture_answer_intent env st (some u)).saves = [] ∧
      ∀ st2, (capture_answer_intent env st (some u)).okState = some st2 →
        st2.patient_data = st.patient_data) := by
  refine ⟨?_, ?_, ?_⟩
  · intro env cat st u qd hq hw hac hafc hcf hcur hslot
    rw [capture_to_normalPhase env cat st u qd hq hw hac hafc hcf hcur]
    unfold normalPhase
    rw [if_pos hslot]
    have hs := noconfPhase_spec env cat st qd (pyStrip u) hac
    refine ⟨hs.1, fun st2 h => ?_⟩
    have h2 := (hs.2) st2 h
    refine ⟨?_, ?_, h2.2.1, h2.2.2⟩
    · rw [h2.1, lookupPd_setPd_self]
    · intro k hk
      rw [h2.1, lookupPd_setPd_other _ _ _ _ _ hk]
  · intro env cat st u cp p qd0 hq hw hafc huf hcp hcur hdec
    rw [capture_to_followupConfirmYes env cat st u cp p qd0 hq hw hafc huf hcp hcur hdec]
    have hs := followupConfirmYes_saves_spec env cat st p
    refine ⟨hs.1, fun st2 h => ?_⟩
    rw [hs.2 st2 h, lookupPd_setPd_self]
  · intro env cat st u cp p qd0 hq hw hafc huf hcp hcur hdec
    exact capture_followupConfirm_nonyes env cat st u cp p qd0 hq hw hafc huf hcp hcur hdec

/-- C2 witness: the three parts at concrete turns — the allergies answer
    turn, the follow-up YES commit, and a follow-up NO. -/
theorem c2_noconf_immediate_write_witness :
    ((capture_answer_intent envC2 (stAt 1 0) (some "yeah I react to peanuts")).saves =
      [setPd (stAt 1 0).patient_data qAllergies.question_id qAllergies.question_title
        (pyLower (parse_yes_no_and_detail envC2.parseSvc
          (pyStrip "yeah I react to peanuts") qAllergies.question).1)] ∧
      ∀ st2, (capture_answer_intent envC2 (stAt 1 0)
          (some "yeah I react to peanuts")).okState = some st2 →
        lookupPd st2.patient_data qAllergies.question_id =
          some (qAllergies.question_title,
            pyLower (parse_yes_no_and_detail envC2.parseSvc
              (pyStrip "yeah I react to peanuts") qAllergies.question).1) ∧
        (∀ k, k ≠ qAllergies.question_id →
          lookupPd st2.patient_data k = lookupPd (stAt 1 0).patient_data k) ∧
        st2.awaiting_confirmation = false ∧
        ((parse_yes_no_and_detail envC2.parseSvc
            (pyStrip "yeah I react to peanuts") qAllergies.question).1 = "YES" →
          ∀ d, (parse_yes_no_and_detail envC2.parseSvc
            (pyStrip "yeah I react to peanuts") qAllergies.question).2 = some d →
          ∀ f0 rest, qAllergies.follow_up = f0 :: rest →
            st2.unconfirmed_followup = some ⟨qAllergies.question_id, f0.question,
              f0.question_title.getD "response", d, 0⟩ ∧
            st2.awaiting_followup_confirmation = true)) ∧
    ((capture_answer_intent envYesDec stFupConf (some "yes")).saves =
      [setPd stFupConf.patient_data (pFax.question_id ++ "_" ++ toString pFax.followup_index)
        pFax.question_title pFax.response] ∧
      ∀ st2, (capture_answer_intent envYesDec stFupConf (some "yes")).okState = some st2 →
        lookupPd st2.patient_data (pFax.question_id ++ "_" ++ toString pFax.followup_index) =
          some (pFax.question_title, pFax.response)) ∧
    ((capture_answer_intent envNoDec stFupConf (some "no")).saves = [] ∧
      ∀ st2, (capture_answer_intent envNoDec stFupConf (some "no")).okState = some st2 →
        st2.patient_data = stFupConf.patient_data) :=
  ⟨c2_noconf_immediate_write.1 envC2 catMain (stAt 1 0) "yeah I react to peanuts" qAllergies
      rfl rfl rfl rfl rfl (by decide) (by decide),
   (c2_noconf_immediate_write.2.1 envYesDec catMain stFupConf "yes"
      "You mentioned: peanut allergy. Is that correct?" pFax qAllergies
      rfl rfl rfl rfl rfl (by decide) (by decide)),
   (c2_noconf_immediate_write.2.2 envNoDec catMain stFupConf "no"
      "You mentioned: peanut allergy. Is that correct?" pFax qAllergies
      rfl rfl rfl rfl rfl (by decide) (Or.inl (by decide)))⟩

/-! ## Claim C3 -/

theorem noconfSpeak_ask (env : Env) (dec : String) (nq : QuestionData) (st : SessState)
    (saves : List PData) :
    (noconfSpeak env dec nq st saves).askOut = some nq.question := by
  unfold noconfSpeak
  by_cases hd : dec = "NO" <;> simp [hd, StepResult.askOut]

theorem noconfAdvance_resolves (env : Env) (cat : Catalog) (st2 : SessState) (dec : String)
    (saves : List PData) (cs0 cq0 : Nat)
    (hcs : st2.current_section = cs0) (hcq : st2.current_question = cq0) :
    AdvancesFrom cat cs0 cq0 (noconfAdvance env cat st2 dec saves) := by
  obtain ⟨qs, cs, cq, pd, w, ac, afc, cf, ua, uf, fl, cpr, pfn⟩ := st2
  simp only at hcs hcq
  subst hcs hcq
  unfold AdvancesFrom noconfAdvance
  dsimp only
  constructor
  · intro nq h1
    rw [h1]
    dsimp only
    refine ⟨noconfSpeak_ask env dec nq _ saves, ?_⟩
    have hs := noconfSpeak_spec env dec nq
      ⟨qs, cs, cq + 1, pd, w, ac, afc, cf, ua, uf, fl, cpr, pfn⟩ saves
    simp [okIndices, hs.2]
  · intro h1
    rw [h1]
    dsimp only
    constructor
    · intro nq h2
      rw [h2]
      dsimp only
      refine ⟨noconfSpeak_ask env dec nq _ saves, ?_⟩
      have hs := noconfSpeak_spec env dec nq
        ⟨qs, cs + 1, 0, pd, w, ac, afc, cf, ua, uf, fl, cpr, pfn⟩ saves
      simp [okIndices, hs.2]
    · intro h2
      rw [h2]
      dsimp only
      exact ⟨rfl, rfl, rfl⟩

theorem followupConfirmYes_resolves (env : Env) (cat : Catalog) (st : SessState)
    (p : PendingFollowup)
    (hdone : (lookupFups st.followup_lists p.question_id).get? (p.followup_index + 1) = none) :
    AdvancesFrom cat st.current_section st.current_question
      (followupConfirmYes env cat st p) := by
  obtain ⟨qs, cs, cq, pd, w, ac, afc, cf, ua, uf, fl, cpr, pfn⟩ := st
  simp only at hdone
  unfold AdvancesFrom followupConfirmYes
  dsimp only
  rw [hdone]
  dsimp only
  constructor
  · intro nq h1
    rw [h1]
    dsimp only
    exact ⟨rfl, rfl⟩
  · intro h1
    rw [h1]
    dsimp only
    constructor
    · intro nq h2
      rw [h2]
      dsimp only
      exact ⟨rfl, rfl⟩
    · intro h2
      rw [h2]
      dsimp only
      exact ⟨rfl, rfl, rfl⟩

theorem confirmAdvance_resolves (env : Env) (cat : Catalog) (st3 : SessState)
    (p : PendingAnswer) (sn : String) (saves : List PData) (cs0 cq0 : Nat)
    (hcs : st3.current_section = cs0) (hcq : st3.current_question = cq0)
    (hs : p.«section» = cs0) (hqi : p.question_index = cq0) :
    AdvancesFrom cat cs0 cq0 (confirmAdvance env cat st3 p sn saves) := by
  obtain ⟨qs, cs, cq, pd, w, ac, afc, cf, ua, uf, fl, cpr, pfn⟩ := st3
  simp only at hcs hcq hs hqi
  subst hcs hcq
  unfold AdvancesFrom confirmAdvance
  dsimp only
  rw [hs, hqi]
  constructor
  · intro nq h1
    rw [h1]
    dsimp only
    exact ⟨rfl, rfl⟩
  · intro h1
    rw [h1]
    dsimp only
    constructor
    · intro nq h2
      rw [h2]
      dsimp only
      exact ⟨rfl, rfl⟩
    · intro h2
      rw [h2]
      dsimp only
      exact ⟨rfl, rfl, rfl⟩

theorem confirmYes_resolves (env : Env) (cat : Catalog) (st : SessState) (p : PendingAnswer)
    (hs : p.«section» = st.current_section)
    (hqi : p.question_index = st.current_question) :
    AdvancesFrom cat st.current_section st.current_question (confirmYes env cat st p) := by
  unfold confirmYes
  dsimp only
  exact confirmAdvance_resolves env cat _ p _ _ st.current_section st.current_question
    rfl rfl hs hqi

/-- C3: in every live branch that completes a question the shared
    next-question resolution applies — after a committed follow-up run
    (part 1), after a confirmed main answer (part 2; `follow_ups` is
    always empty there, line 892), and after a no-confirmation answer
    that starts no follow-up (part 3): increment the question index; ask
    the question there if any; else move to the next section's first
    question if any; else emit exactly the catalog's closing statement
    with no reprompt.  Part 4: once no current question exists, no turn
    ever returns a question again. -/
theorem c3_next_question_resolution :
    (∀ (env : Env) (cat : Catalog) (st : SessState) (u cp : String) (p : PendingFollowup)
      (qd0 : QuestionData),
      st.questions = some cat →
      st.waiting_for_ready_confirmation = false →
      st.awaiting_followup_confirmation = true →
      st.unconfirmed_followup = some p →
      st.confirmation_prompt = some cp →
      get_next_question cat st.current_section st.current_question = some qd0 →
      check_yes_no_with_gemini env.yesNoSvc u cp = "YES" →
      (lookupFups st.followup_lists p.question_id).get? (p.followup_index + 1) = none →
      AdvancesFrom cat st.current_section st.current_question
        (capture_answer_intent env st (some u))) ∧
    (∀ (env : Env) (cat : Catalog) (st : SessState) (u cp : String) (p : PendingAnswer)
      (qd0 : QuestionData),
      st.questions = some cat →
      st.waiting_for_ready_confirmation = false →
      st.awaiting_confirmation = true →
      st.awaiting_followup_confirmation = false →
      st.current_followup_for = none →
      st.confirmation_prompt = some cp →
      st.unconfirmed_answer = some p →
      get_next_question cat st.current_section st.current_question = some qd0 →
      check_yes_no_with_gemini env.yesNoSvc u cp = "YES" →
      p.«section» = st.current_section →
      p.question_index = st.current_question →
      AdvancesFrom cat st.current_section st.current_question
        (capture_answer_intent env st (some u))) ∧
    (∀ (env : Env) (cat : Catalog) (st : SessState) (u : String) (qd : QuestionData),
      st.questions = some cat →
      st.waiting_for_ready_confirmation = false →
      st.awaiting_confirmation = false →
      st.awaiting_followup_confirmation = false →
      st.current_followup_for = none →
      get_next_question cat st.current_section st.current_question = some qd →
      qd.question_title ∈ NO_CONFIRMATION_SLOTS →
      ((parse_yes_no_and_detail env.parseSvc (pyStrip u) qd.question).1 = "YES" →
        (parse_yes_no_and_detail env.parseSvc (pyStrip u) qd.question).2 = none ∧
        qd.follow_up = []) →
      AdvancesFrom cat st.current_section st.current_question
        (capture_answer_intent env st (some u))) ∧
    (∀ (env : Env) (cat : Catalog) (st : SessState) (u? : Option String),
      st.questions = some cat →
      get_next_question cat st.current_section st.current_question = none →
      (capture_answer_intent env st u?).askOut = none ∧
      ((capture_answer_intent env st u?).isError = true ∨
        (capture_answer_intent env st u?).speakOut =
          some "No further questions. Thank you.")) := by
  refine ⟨?_, ?_, ?_, ?_⟩
  · intro env cat st u cp p qd0 hq hw hafc huf hcp hcur hdec hdone
    rw [capture_to_followupConfirmYes env cat st u cp p qd0 hq hw hafc huf hcp hcur hdec]
    exact followupConfirmYes_resolves env cat st p hdone
  · intro env cat st u cp p qd0 hq hw hac hafc hcf hcp hua hcur hdec hs hqi
    rw [capture_to_confirmPhase env cat st u qd0 hq hw hac hafc hcf hcur]
    unfold confirmPhase
    rw [hcp]
    simp [hdec, hua]
    exact confirmYes_resolves env cat st p hs hqi
  · intro env cat st u qd hq hw hac hafc hcf hcur hslot hadv
    rw [capture_to_normalPhase env cat st u qd hq hw hac hafc hcf hcur]
    unfold normalPhase
    rw [if_pos hslot]
    unfold noconfPhase
    dsimp only
    by_cases hy : (parse_yes_no_and_detail env.parseSvc (pyStrip u) qd.question).1 = "YES"
    · obtain ⟨hd, hf⟩ := hadv hy
      rw [if_pos hy, hd, hf]
      exact noconfAdvance_resolves env cat _ _ _ st.current_section st.current_question rfl rfl
    · rw [if_neg hy]
      exact noconfAdvance_resolves env cat _ _ _ st.current_section st.current_question rfl rfl
  · intro env cat st u? hq hcur
    obtain ⟨qs, cs, cq, pd, w, ac, afc, cf, ua, uf, fl, cpr, pfn⟩ := st
    simp only at hq hcur
    subst hq
    cases cf <;> cases afc <;> cases uf <;>
      simp [capture_answer_intent, captureMain, hcur, StepResult.askOut,
        StepResult.isError, StepResult.speakOut]

/-- C3 witness: the four parts at concrete turns on `catMain` — follow-up
    completion at (1,0), confirmation-YES at (0,0), a no-confirmation NO at
    (1,1) (which exhausts the catalog and emits the closing statement), and
    a terminal-state turn at (2,0). -/
theorem c3_next_question_resolution_witness :
    AdvancesFrom catMain 1 0 (capture_answer_intent envYesDec stFupConf (some "yes")) ∧
    AdvancesFrom catMain 0 0 (capture_answer_intent envYesDec stConfAddr (some "yes")) ∧
    AdvancesFrom catMain 1 1 (capture_answer_intent envNoParse (stAt 1 1) (some "no")) ∧
    ((capture_answer_intent envBase (stAt 2 0) (some "hello")).askOut = none ∧
      ((capture_answer_intent envBase (stAt 2 0) (some "hello")).isError = true ∨
        (capture_answer_intent envBase (stAt 2 0) (some "hello")).speakOut =
          some "No further questions. Thank you.")) :=
  ⟨c3_next_question_resolution.1 envYesDec catMain stFupConf "yes"
      "You mentioned: peanut allergy. Is that correct?" pFax qAllergies
      rfl rfl rfl rfl rfl (by decide) (by decide) (by decide),
   c3_next_question_resolution.2.1 envYesDec catMain stConfAddr "yes" "confirm?" pAddr
      qAddress rfl rfl rfl rfl rfl rfl rfl (by decide) (by decide) (by decide) (by decide),
   c3_next_question_resolution.2.2.1 envNoParse catMain (stAt 1 1) "no" qChildren
      rfl rfl rfl rfl rfl (by decide) (by decide) (by decide),
   c3_next_question_resolution.2.2.2 envBase catMain (stAt 2 0) (some "hello")
      rfl (by decide)⟩

/-! ## Claim C9 -/

theorem noconfAdvance_mono (env : Env) (cat : Catalog) (st2 : SessState) (dec : String)
    (saves : List PData) :
    ∀ stR, (noconfAdvance env cat st2 dec saves).okState = some stR →
      lexLe (st2.current_section, st2.current_question)
        (stR.current_section, stR.current_question) := by
  obtain ⟨qs, cs, cq, pd, w, ac, afc, cf, ua, uf, fl, cpr, pfn⟩ := st2
  unfold noconfAdvance
  dsimp only
  cases h1 : get_next_question cat cs (cq + 1) with
  | some nq =>
    intro stR h
    rw [(noconfSpeak_spec env dec nq _ saves).2] at h
    simp only [Option.some.injEq] at h
    subst h
    exact lexLe_next_question cs cq
  | none =>
    cases h2 : get_next_question cat (cs + 1) 0 with
    | some nq =>
      intro stR h
      rw [(noconfSpeak_spec env dec nq _ saves).2] at h
      simp only [Option.some.injEq] at h
      subst h
      exact lexLe_next_section cs cq
    | none =>
      intro stR h
      simp only [StepResult.okState, Option.some.injEq] at h
      subst h
      exact lexLe_next_section cs cq

theorem normalPhase_mono (env : Env) (cat : Catalog) (st : SessState) (qd : QuestionData)
    (u : String) :
    ∀ st2, (normalPhase env cat st qd u).okState = some st2 →
      lexLe (st.current_section, st.current_question)
        (st2.current_section, st2.current_question) := by
  unfold normalPhase
  by_cases hslot : qd.question_title ∈ NO_CONFIRMATION_SLOTS
  · rw [if_pos hslot]
    unfold noconfPhase
    dsimp only
    by_cases hy : (parse_yes_no_and_detail env.parseSvc (pyStrip u) qd.question).1 = "YES"
    · rw [if_pos hy]
      cases hdet : (parse_yes_no_and_detail env.parseSvc (pyStrip u) qd.question).2 with
      | some d =>
        cases hfu : qd.follow_up with
        | nil => intro st2 h; simp [StepResult.okState] at h
        | cons f0 rest =>
          intro st2 h
          simp only [StepResult.okState, Option.some.injEq] at h
          subst h
          exact lexLe_refl _
      | none =>
        cases hfu : qd.follow_up with
        | cons f0 rest =>
          intro st2 h
          simp only [StepResult.okState, Option.some.injEq] at h
          subst h
          exact lexLe_refl _
        | nil => exact noconfAdvance_mono env cat _ _ _
    · rw [if_neg hy]
      exact noconfAdvance_mono env cat _ _ _
  · rw [if_neg hslot]
    cases hsb : slotBranch env qd qd.question_title (pyStrip u) with
    | reask s a =>
      intro st2 h
      simp only [StepResult.okState, Option.some.injEq] at h
      subst h
      exact lexLe_refl _
    | proceed f pfnU =>
      cases pfnU <;>
        · intro st2 h
          simp only [storePendingAnswer, StepResult.okState, Option.some.injEq] at h
          subst h
          exact lexLe_refl _

theorem followupConfirmYes_mono (env : Env) (cat : Catalog) (st : SessState)
    (p : PendingFollowup) :
    ∀ st2, (followupConfirmYes env cat st p).okState = some st2 →
      lexLe (st.current_section, st.current_question)
        (st2.current_section, st2.current_question) := by
  obtain ⟨qs, cs, cq, pd, w, ac, afc, cf, ua, uf, fl, cpr, pfn⟩ := st
  unfold followupConfirmYes
  dsimp only
  cases h1 : (lookupFups fl p.question_id).get? (p.followup_index + 1) with
  | some nf =>
    intro st2 h
    simp only [StepResult.okState, Option.some.injEq] at h
    subst h
    exact lexLe_refl _
  | none =>
    cases h2 : get_next_question cat cs (cq + 1) with
    | some nq =>
      intro st2 h
      simp only [StepResult.okState, Option.some.injEq] at h
      subst h
      exact lexLe_next_question cs cq
    | none =>
      cases h3 : get_next_question cat (cs + 1) 0 with
      | some nq =>
        intro st2 h
        simp only [StepResult.okState, Option.some.injEq] at h
        subst h
        exact lexLe_next_section cs cq
      | none =>
        intro st2 h
        simp only [StepResult.okState, Option.some.injEq] at h
        subst h
        exact lexLe_next_section cs cq

theorem confirmYes_mono (env : Env) (cat : Catalog) (st : SessState) (p : PendingAnswer)
    (hqi : p.question_index = st.current_question) :
    ∀ st2, (confirmYes env cat st p).okState = some st2 →
      lexLe (st.current_section, st.current_question)
        (st2.current_section, st2.current_question) := by
  obtain ⟨qs, cs, cq, pd, w, ac, afc, cf, ua, uf, fl, cpr, pfn⟩ := st
  simp only at hqi
  unfold confirmYes confirmAdvance
  dsimp only
  rw [hqi]
  cases h1 : get_next_question cat p.«section» (cq + 1) with
  | some nq =>
    intro st2 h
    simp only [StepResult.okState, Option.some.injEq] at h
    subst h
    exact lexLe_next_question cs cq
  | none =>
    cases h2 : get_next_question cat (cs + 1) 0 with
    | some nq =>
      intro st2 h
      simp only [StepResult.okState, Option.some.injEq] at h
      subst h
      exact lexLe_next_section cs cq
    | none =>
      intro st2 h
      simp only [StepResult.okState, Option.some.injEq] at h
      subst h
      exact lexLe_next_section cs cq

theorem confirmPhase_mono (env : Env) (cat : Catalog) (st : SessState) (u : String)
    (hua : ∀ p, st.unconfirmed_answer = some p → p.question_index = st.current_question) :
    ∀ st2, (confirmPhase env cat st u).okState = some st2 →
      lexLe (st.current_section, st.current_question)
        (st2.current_section, st2.current_question) := by
  unfold confirmPhase
  cases hcp : st.confirmation_prompt with
  | none => intro st2 h; simp [StepResult.okState] at h
  | some cp =>
    dsimp only
    by_cases hy : check_yes_no_with_gemini env.yesNoSvc u cp = "YES"
    · rw [if_pos hy]
      cases hua2 : st.unconfirmed_answer with
      | none => intro st2 h; simp [StepResult.okState] at h
      | some p => exact confirmYes_mono env cat st p (hua p hua2)
    · rw [if_neg hy]
      by_cases hn : check_yes_no_with_gemini env.yesNoSvc u cp = "NO"
      · rw [if_pos hn]
        cases hua2 : st.unconfirmed_answer with
        | none => intro st2 h; simp [StepResult.okState] at h
        | some p =>
          intro st2 h
          simp only [StepResult.okState, Option.some.injEq] at h
          subst h
          exact lexLe_refl _
      · rw [if_neg hn]
        intro st2 h
        simp only [StepResult.okState, Option.some.injEq] at h
        subst h
        exact lexLe_refl _

theorem afterConfirmPhases_mono (env : Env) (cat : Catalog) (st : SessState)
    (qd : QuestionData) (sn qt u : String) :
    ∀ st2, (afterConfirmPhases env cat st qd sn qt u).okState = some st2 →
      lexLe (st.current_section, st.current_question)
        (st2.current_section, st2.current_question) := by
  unfold afterConfirmPhases
  dsimp only
  by_cases hm : (st.current_followup_for.isSome && !st.awaiting_followup_confirmation) = true
  · rw [if_pos hm]
    cases huf : st.unconfirmed_followup with
    | none =>
      intro st2 h
      simp only [StepResult.okState, Option.some.injEq] at h
      subst h
      exact lexLe_refl _
    | some uu =>
      intro st2 h
      simp only [StepResult.okState, Option.some.injEq] at h
      subst h
      exact lexLe_refl _
  · rw [if_neg hm]
    exact normalPhase_mono env cat st qd u

theorem readinessPhase_mono (env : Env) (cat : Catalog) (st : SessState) (u : String)
    (h0 : st.current_section = 0) (h00 : st.current_question = 0) :
    ∀ st2, (readinessPhase env cat st u).okState = some st2 →
      lexLe (st.current_section, st.current_question)
        (st2.current_section, st2.current_question) := by
  unfold readinessPhase
  dsimp only
  by_cases hy : check_yes_no_with_gemini env.yesNoSvc u cat.opening = "YES"
  · rw [if_pos hy]
    cases hg : get_next_question cat 0 0 with
    | none => intro st2 h; simp [StepResult.okState] at h
    | some nq =>
      intro st2 h
      simp only [StepResult.okState, Option.some.injEq] at h
      subst h
      rw [h0, h00]
      exact lexLe_refl _
  · rw [if_neg hy]
    by_cases hn : check_yes_no_with_gemini env.yesNoSvc u cat.opening = "NO" <;>
      [rw [if_pos hn]; rw [if_neg hn]] <;>
      · intro st2 h
        simp only [StepResult.okState, Option.some.injEq] at h
        subst h
        exact lexLe_refl _

theorem followupConfirmPhase_mono (env : Env) (cat : Catalog) (st : SessState) (u : String)
    (r : StepResult) (hfc : followupConfirmPhase env cat st u = some r) :
    ∀ st2, r.okState = some st2 →
      lexLe (st.current_section, st.current_question)
        (st2.current_section, st2.current_question) := by
  unfold followupConfirmPhase at hfc
  cases hafc : st.awaiting_followup_confirmation with
  | false => rw [hafc] at hfc; simp at hfc
  | true =>
    rw [hafc] at hfc
    simp only [Bool.not_true, Bool.false_eq_true, if_false] at hfc
    cases huf : st.unconfirmed_followup with
    | none =>
      rw [huf] at hfc
      simp only [Option.some.injEq] at hfc
      subst hfc
      intro st2 h
      simp [StepResult.okState] at h
    | some pending =>
      rw [huf] at hfc
      dsimp only at hfc
      by_cases h1 : (match st.confirmation_prompt with
        | none => "UNCLEAR"
        | some cp => check_yes_no_with_gemini env.yesNoSvc u cp) = "UNCLEAR"
      · rw [if_pos h1] at hfc
        simp only [Option.some.injEq] at hfc
        subst hfc
        intro st2 h
        simp only [StepResult.okState, Option.some.injEq] at h
        subst h
        exact lexLe_refl _
      · rw [if_neg h1] at hfc
        by_cases h2 : (match st.confirmation_prompt with
          | none => "UNCLEAR"
          | some cp => check_yes_no_with_gemini env.yesNoSvc u cp) = "YES"
        · rw [if_pos h2] at hfc
          simp only [Option.some.injEq] at hfc
          subst hfc
          exact followupConfirmYes_mono env cat st pending
        · rw [if_neg h2] at hfc
          by_cases h3 : (match st.confirmation_prompt with
            | none => "UNCLEAR"
            | some cp => check_yes_no_with_gemini env.yesNoSvc u cp) = "NO"
          · rw [if_pos h3] at hfc
            simp only [Option.some.injEq] at hfc
            subst hfc
            intro st2 h
            simp only [StepResult.okState, Option.some.injEq] at h
            subst h
            exact lexLe_refl _
          · rw [if_neg h3] at hfc
            simp at hfc

theorem capturePhases_mono (env : Env) (cat : Catalog) (st : SessState) (qd : QuestionData)
    (sn qt u : String)
    (hready : st.waiting_for_ready_confirmation = true →
      st.current_section = 0 ∧ st.current_question = 0)
    (hua : st.awaiting_confirmation = true →
      ∀ p, st.unconfirmed_answer = some p → p.question_index = st.current_question) :
    ∀ st2, (capturePhases env cat st qd sn qt u).okState = some st2 →
      lexLe (st.current_section, st.current_question)
        (st2.current_section, st2.current_question) := by
  unfold capturePhases
  cases hw : st.waiting_for_ready_confirmation with
  | true =>
    rw [if_pos rfl]
    exact readinessPhase_mono env cat st u (hready hw).1 (hready hw).2
  | false =>
    rw [if_neg (by simp)]
    cases hfc : followupConfirmPhase env cat st u with
    | some r =>
      dsimp only
      exact followupConfirmPhase_mono env cat st u r hfc
    | none =>
      dsimp only
      cases hac : st.awaiting_confirmation with
      | true =>
        rw [if_pos rfl]
        exact confirmPhase_mono env cat st u (hua hac)
      | false =>
        rw [if_neg (by simp)]
        exact afterConfirmPhases_mono env cat st qd sn qt u

/-- C9: the `(current_section, current_question)` pointer never moves
    backward across turns — every successful turn leaves it
    lexicographically at or after its previous value (part 1), and a NO at
    confirmation leaves it exactly at the same index (part 2). -/
theorem c9_indices_monotone :
    (∀ (env : Env) (cat : Catalog) (st : SessState) (u? : Option String),
      st.questions = some cat →
      (st.waiting_for_ready_confirmation = true →
        st.current_section = 0 ∧ st.current_question = 0) →
      (st.awaiting_confirmation = true →
        ∀ p, st.unconfirmed_answer = some p →
          p.question_index = st.current_question) →
      ∀ st2, (capture_answer_intent env st u?).okState = some st2 →
        lexLe (st.current_section, st.current_question)
          (st2.current_section, st2.current_question)) ∧
    (∀ (env : Env) (cat : Catalog) (st : SessState) (u cp : String) (p : PendingAnswer)
      (qd0 : QuestionData),
      st.questions = some cat →
      st.waiting_for_ready_confirmation = false →
      st.awaiting_confirmation = true →
      st.awaiting_followup_confirmation = false →
      st.current_followup_for = none →
      st.confirmation_prompt = some cp →
      st.unconfirmed_answer = some p →
      get_next_question cat st.current_section st.current_question = some qd0 →
      check_yes_no_with_gemini env.yesNoSvc u cp = "NO" →
      ∀ st2, (capture_answer_intent env st (some u)).okState = some st2 →
        st2.current_section = st.current_section ∧
        st2.current_question = st.current_question) := by
  constructor
  · intro env cat st u? hq hready hua st2 hok
    obtain ⟨qs, cs, cq, pd, w, ac, afc, cf, ua, uf, fl, cpr, pfn⟩ := st
    simp only at hq hready hua hok ⊢
    subst hq
    revert hok
    cases hcur : get_next_question cat cs cq with
    | none =>
      cases cf <;> cases afc <;> cases uf <;>
        simp [capture_answer_intent, captureMain, hcur, StepResult.okState]
      all_goals
        intro h
        subst h
        exact lexLe_refl _
    | some qd =>
      cases u? with
      | none =>
        simp [capture_answer_intent, captureMain, hcur, StepResult.okState]
        intro h
        subst h
        exact lexLe_refl _
      | some u =>
        simp only [capture_answer_intent, captureMain, hcur]
        exact fun hok => capturePhases_mono env cat
          ⟨some cat, cs, cq, pd, w, ac, afc, cf, ua, uf, fl, cpr, pfn⟩ qd _ _ u
          hready hua st2 hok
  · intro env cat st u cp p qd0 hq hw hac hafc hcf hcp hua hcur hdec st2 hok
    rw [capture_to_confirmPhase env cat st u qd0 hq hw hac hafc hcf hcur] at hok
    unfold confirmPhase at hok
    rw [hcp] at hok
    simp only [hdec, hua] at hok
    simp at hok
    simp only [StepResult.okState, Option.some.injEq] at hok
    subst hok
    exact ⟨rfl, rfl⟩

/-- C9 witness: part 1 on a concrete no-confirmation advance and part 2 on
    a concrete NO at confirmation. -/
theorem c9_indices_monotone_witness :
    (∀ st2, (capture_answer_intent envNoParse (stAt 1 1) (some "no")).okState = some st2 →
      lexLe ((stAt 1 1).current_section, (stAt 1 1).current_question)
        (st2.current_section, st2.current_question)) ∧
    (∀ st2, (capture_answer_intent envNoDec stConfAddr (some "no")).okState = some st2 →
      st2.current_section = stConfAddr.current_section ∧
      st2.current_question = stConfAddr.current_question) :=
  ⟨c9_indices_monotone.1 envNoParse catMain (stAt 1 1) (some "no") rfl
      (fun h => by simp [stAt] at h) (fun h => by simp [stAt] at h),
   c9_indices_monotone.2 envNoDec catMain stConfAddr "no" "confirm?" pAddr qAddress
      rfl rfl rfl rfl rfl rfl rfl (by decide) (by decide)⟩

/-! ## Claim C10 -/

/-- The catalog accessor after loading: every top-level question text is
    normalised; the follow-up list is passed through untouched. -/
theorem get_next_question_loadQuestions (doc : Catalog) (i j : Nat) (sec : SectionData)
    (q : QuestionData) (hsec : doc.sections.get? i = some sec)
    (hq : sec.questions.get? j = some q) :
    get_next_question (loadQuestions doc) i j =
      some ⟨q.question_id, q.question_title, normalise_question q.question, q.follow_up⟩ := by
  simp only [List.get?_eq_getElem?] at hsec hq
  unfold get_next_question loadQuestions
  simp [List.getElem?_map, hsec, hq]

/-- C10 counterexample: not every question text fetched from the catalog is
    normalised before being spoken.  `get_questions` normalises only the
    top-level question texts, so a *follow-up* prompt is emitted as raw
    catalog text: here the turn answers YES to the allergies question and
    the code speaks the raw follow-up `Which ones (e.g. nuts)?`, not its
    normalised form. -/
theorem c10_followup_not_normalised_cex :
    c10_run.speakOut = some "Which ones (e.g. nuts)?" ∧
    c10_run.askOut = some "Which ones (e.g. nuts)?" ∧
    normalise_question "Which ones (e.g. nuts)?" = "Which ones for example, nuts?" ∧
    ("Which ones (e.g. nuts)?" : String) ≠ "Which ones for example, nuts?" := by
  decide

/-- C10 (amended): every *top-level* question text fetched from the catalog
    is normalised at load time — `e.g.`/`e.g:`/`e.g` becomes
    `for example, `, parentheses are removed, surrounding whitespace is
    stripped — so any main question resolved by the accessor carries the
    normalised text (follow-up texts are kept raw), and the prompt emitted
    for the first question of section 0 on readiness-YES is exactly the
    normalised form of the raw catalog text. -/
theorem c10_main_question_normalised :
    (∀ (doc : Catalog) (i j : Nat) (sec : SectionData) (q : QuestionData),
      doc.sections.get? i = some sec → sec.questions.get? j = some q →
      get_next_question (loadQuestions doc) i j =
        some ⟨q.question_id, q.question_title, normalise_question q.question, q.follow_up⟩) ∧
    (∀ (env : Env) (doc : Catalog) (st : SessState) (u : String) (sec0 : SectionData)
      (q0 : QuestionData),
      st.questions = some (loadQuestions doc) →
      st.waiting_for_ready_confirmation = true →
      st.current_section = 0 → st.current_question = 0 →
      st.current_followup_for = none →
      doc.sections.get? 0 = some sec0 → sec0.questions.get? 0 = some q0 →
      check_yes_no_with_gemini env.yesNoSvc u (loadQuestions doc).opening = "YES" →
      (capture_answer_intent env st (some u)).speakOut =
        some ("Great! Let" ++ sq ++ "s get started. " ++ normalise_question q0.question) ∧
      (capture_answer_intent env st (some u)).askOut =
        some (normalise_question q0.question)) := by
  refine ⟨fun doc i j sec q hsec hq =>
    get_next_question_loadQuestions doc i j sec q hsec hq,
    fun env doc st u sec0 q0 hq hw hcs hcq hcf hsec hq0 hdec => ?_⟩
  obtain ⟨qs, cs, cq, pd, w, ac, afc, cf, ua, uf, fl, cpr, pfn⟩ := st
  simp only at hq hw hcs hcq hcf
  subst hq hw hcs hcq hcf
  have hc := get_next_question_loadQuestions doc 0 0 sec0 q0 hsec hq0
  simp [capture_answer_intent, captureMain, capturePhases, readinessPhase, hc, hdec,
    StepResult.speakOut, StepResult.askOut]

/-- C10 witness: the amended theorem at the concrete raw catalog. -/
theorem c10_main_question_normalised_witness :
    get_next_question (loadQuestions rawCatC10) 0 0 =
      some ⟨"q0_0", "allergies",
        "Do you have any allergies? for example, think of common ones",
        [⟨"Which ones (e.g. nuts)?", some "allergy_type"⟩]⟩ ∧
    (capture_answer_intent envYesDec stReadyC10 (some "yes")).speakOut =
      some ("Great! Let" ++ sq ++
        "s get started. Do you have any allergies? for example, think of common ones") := by
  constructor
  · exact (c10_main_question_normalised.1 rawCatC10 0 0 _ _ rfl rfl).trans (by decide)
  · exact ((c10_main_question_normalised.2 envYesDec rawCatC10 stReadyC10 "yes" _ _
      rfl rfl rfl rfl rfl rfl rfl (by decide)).1).trans (by decide)

/-! ## Claim C4 -/

/-- C4: the claim that no turn ever raises an unhandled exception fails on
    the code.  On a no-confirmation question with no configured follow-ups
    (here `children`), an utterance classified YES with an extracted detail
    reaches `follow_ups[0]["question"]` (line 1049) on an empty list and the
    turn aborts with an IndexError — after the main YES answer was already
    written and persisted.  The guard on the very next source line handles
    the empty case, so the spec (`no error is fatal; the worst outcome is a
    repeated prompt`) is the evident intent and the subscript is a slip. -/
theorem c4_unhandled_indexerror :
    c4_run = .err .indexError [[("q1_1", "children", "yes")]] := by
  decide

/-! ## Claim C5 -/

/-- C5: the claim that a detected repeat request re-issues a rephrased
    question without altering state fails on the code.  At lines 991-992
    the rephrased question is computed and immediately dropped (no
    `return`), so the turn continues: here the utterance `can you repeat
    that` is validated as a home-address answer, a pending answer is
    stored, the confirmation flag is raised, and the rephrased question is
    never spoken.  The spec describes the evident intent of the
    dead assignment, so this is a missing-return slip in the code. -/
theorem c5_repeat_request_ignored :
    is_repeat_request envC5.repeatSvc "can you repeat that" "What is your home address?" = true ∧
    get_rephrased_question envC5.rephraseSvc "What is your home address?" =
      some "Where do you live?" ∧
    c5_run.speakOut ≠ some "Where do you live?" ∧
    (c5_run.okState.map (·.awaiting_confirmation)) = some true ∧
    (c5_run.okState.map (·.unconfirmed_answer)) =
      some (some ⟨"q0_0", "home_address", "What is your home address?",
        "can you repeat that", 0, 0⟩) := by
  decide

/-! ## Claim C6 -/

/-- C6 counterexample: the conjunct `rephrasing falls back so the original
    question is repeated` fails.  With repeat-request detection firing and
    the rephrase service raising, the turn does not repeat the original
    question (its result is discarded at line 992): it emits a
    confirmation prompt for the utterance instead. -/
theorem c6_rephrase_no_repeat_cex :
    is_repeat_request envC6.repeatSvc "can you repeat that" "What is your home address?" = true ∧
    get_rephrased_question envC6.rephraseSvc "What is your home address?" = none ∧
    c6_run.speakOut ≠ some "What is your home address?" ∧
    c6_run.askOut ≠ some "What is your home address?" := by
  decide

/-- C6 (amended): gateway failures (a raised call, or a call returning no
    text) degrade gracefully — validation returns `(valid, the raw slot
    value)`, yes/no classification returns UNCLEAR, extraction returns the
    original response unchanged, and rephrasing returns no result
    (`none`); moreover the turn transition never depends on the repeat or
    rephrase service outcome at all, so no raw service error can reach the
    patient-facing response through them. -/
theorem c6_gateway_fallbacks :
    (∀ sn v q, validate_with_gemini .exn sn v q = (true, v) ∧
      validate_with_gemini (.ok none) sn v q = (true, v)) ∧
    (∀ u q, check_yes_no_with_gemini .exn u q = "UNCLEAR" ∧
      check_yes_no_with_gemini (.ok none) u q = "UNCLEAR") ∧
    (∀ q r sn, extract_information_with_gemini .exn q r sn = r ∧
      extract_information_with_gemini (.ok none) q r sn = r) ∧
    (∀ q, get_rephrased_question .exn q = none ∧
      get_rephrased_question (.ok none) q = none) ∧
    (∀ env st u r1 r2,
      capture_answer_intent { env with repeatSvc := r1, rephraseSvc := r2 } st u =
        capture_answer_intent env st u) :=
  ⟨fun _ _ _ => ⟨rfl, rfl⟩, fun _ _ => ⟨rfl, rfl⟩, fun _ _ _ => ⟨rfl, rfl⟩,
   fun _ => ⟨rfl, rfl⟩, fun _ _ _ _ _ => rfl⟩

/-! ## Claim C7 -/

/-- C7 counterexample: after a NO at confirmation the pending answer is
    *not* discarded from session state — the `unconfirmed_answer` scratch
    field still holds it (only the `awaiting_confirmation` flag is
    cleared, lines 976-979). -/
theorem c7_pending_not_discarded_cex :
    (c7_run.okState.map (·.unconfirmed_answer)) = some (some pAddr) ∧
    some pAddr ≠ (none : Option PendingAnswer) := by
  decide

/-- C7 (amended): a NO at confirmation clears the awaiting-confirmation
    flag (returning the machine to AwaitingAnswer), re-asks the original
    question text, and changes nothing else: `patient_data` is untouched,
    nothing is persisted, and the stale pending value remains in the
    `unconfirmed_answer` scratch field (it is overwritten by the next
    answer). -/
theorem c7_confirmation_no (env : Env) (cat : Catalog) (st : SessState) (u cp : String)
    (p : PendingAnswer) (qd0 : QuestionData)
    (hq : st.questions = some cat)
    (hcur : get_next_question cat st.current_section st.current_question = some qd0)
    (hw : st.waiting_for_ready_confirmation = false)
    (hafc : st.awaiting_followup_confirmation = false)
    (hcf : st.current_followup_for = none)
    (hac : st.awaiting_confirmation = true)
    (hcp : st.confirmation_prompt = some cp)
    (hua : st.unconfirmed_answer = some p)
    (hdec : check_yes_no_with_gemini env.yesNoSvc u cp = "NO") :
    capture_answer_intent env st (some u) =
      .ok ⟨"Okay, let" ++ sq ++ "s try again. " ++ p.question_text, some p.question_text⟩
        { st with awaiting_confirmation := false } [] := by
  obtain ⟨qs, cs, cq, pd, w, ac, afc, cf, ua, uf, fl, cpr, pfn⟩ := st
  simp only at hq hcur hw hafc hcf hac hcp hua
  subst hq hw hafc hcf hac hcp hua
  simp [capture_answer_intent, captureMain, capturePhases, followupConfirmPhase,
    confirmPhase, hcur, hdec]

/-- C7 witness: the amended theorem at the concrete NO turn. -/
theorem c7_confirmation_no_witness :
    capture_answer_intent envNoDec stConfAddr (some "no") =
      .ok ⟨"Okay, let" ++ sq ++ "s try again. What is your home address?",
           some "What is your home address?"⟩
        { stConfAddr with awaiting_confirmation := false } [] := by
  have h := c7_confirmation_no envNoDec catMain stConfAddr "no" "confirm?" pAddr qAddress
    rfl rfl rfl rfl rfl rfl rfl rfl (by decide)
  simpa [pAddr] using h

/-- C8 witness: the amended theorem applied to the empty store. -/
theorem c8_upsert_idempotent_per_key_witness :
    countQ (upsertAnswer 1 1 "q0_0" "home address" "1 X St" 0 5 []) 1 1 "q0_0" = 1 ∧
    countQ (upsertAnswer 1 1 "q0_0" "home address" "1 X St" 0 5
      (upsertAnswer 1 1 "q0_0" "home address" "1 X St" 0 5 [])) 1 1 "q0_0" = 1 ∧
    totalRecs (upsertAnswer 1 1 "q0_0" "home address" "1 X St" 0 5
      (upsertAnswer 1 1 "q0_0" "home address" "1 X St" 0 5 [])) =
      totalRecs (upsertAnswer 1 1 "q0_0" "home address" "1 X St" 0 5 []) :=
  c8_upsert_idempotent_per_key [] 1 1 "q0_0" "home address" "1 X St" 0 5 (by decide)

end VoiceIntake
